import Mathlib

/-!
Verification development for a home-automation controller (`main.py`):
a PIR motion-watch polling loop, a fleet of smart bulbs driven by
per-device try/except sweeps, a hex-RGB → HSV color conversion, and a
small set of HTTP form handlers.  Python numerics are embedded over `ℚ`
(the conversion algorithm of `colorsys.rgb_to_hsv` is followed line by
line; `int()` truncation is explicit), strings over `List Char`, and
fallible code over `Option` (`none` = an uncaught exception propagates).
-/

namespace KasaControl

/-! ## Python integer parsing primitives -/

/-- Value of a single hexadecimal digit character, as accepted by
Python's `int(s, 16)`: `0`-`9`, `a`-`f`, `A`-`F`. -/
def hexDigitVal (c : Char) : Option Nat :=
  let n := c.toNat
  if 48 ≤ n ∧ n ≤ 57 then some (n - 48)
  else if 97 ≤ n ∧ n ≤ 102 then some (n - 87)
  else if 65 ≤ n ∧ n ≤ 70 then some (n - 55)
  else none

/-- Horner accumulation of hex digits; `none` on the first non-digit. -/
def hexDigitsVal : List Char → Nat → Option Nat
  | [], acc => some acc
  | c :: cs, acc =>
    match hexDigitVal c with
    | none => none
    | some d => hexDigitsVal cs (16 * acc + d)

/-- Python `int(s, 16)`: fails (`ValueError`) on the empty string or on a
non-hex-digit character.  (Python additionally tolerates surrounding
whitespace, a sign, and `_` grouping; no input in this program's claims
exercises those.) -/
def pyIntHex (s : List Char) : Option Nat :=
  match s with
  | [] => none
  | _ => hexDigitsVal s 0

/-- Value of a decimal digit character. -/
def decDigitVal (c : Char) : Option Nat :=
  let n := c.toNat
  if 48 ≤ n ∧ n ≤ 57 then some (n - 48) else none

/-- Horner accumulation of decimal digits; `none` on a non-digit. -/
def decDigitsVal : List Char → Nat → Option Nat
  | [], acc => some acc
  | c :: cs, acc =>
    match decDigitVal c with
    | none => none
    | some d => decDigitsVal cs (10 * acc + d)

/-- Python `int(s)` on a string: optional sign followed by at least one
decimal digit; anything else raises `ValueError` (modelled as `none`). -/
def pyIntStr (s : String) : Option Int :=
  match s.toList with
  | [] => none
  | '-' :: rest =>
    match rest with
    | [] => none
    | _ => (decDigitsVal rest 0).map (fun n => -(n : Int))
  | '+' :: rest =>
    match rest with
    | [] => none
    | _ => (decDigitsVal rest 0).map (fun n => (n : Int))
  | l => (decDigitsVal l 0).map (fun n => (n : Int))

/-- Python `int(x)` where `x` is the result of `form.get(...)`: a missing
field is `None`, and `int(None)` raises `TypeError` (modelled as `none`). -/
def pyInt : Option String → Option Int
  | none => none
  | some s => pyIntStr s

/-! ## Hex color parsing (`set_bulbs_color`, lines 54-55) -/

/-- Python slice `l[i:j]` for `0 ≤ i ≤ j` (never raises; may be short). -/
def pySlice (l : List Char) (i j : Nat) : List Char :=
  (l.drop i).take (j - i)

/-- Python `hex_color.lstrip('#')`: removes ALL leading `'#'` characters. -/
def lstripHash (l : List Char) : List Char :=
  l.dropWhile (· == '#')

/-- Line 55: `r, g, b = tuple(int(hex_color[i:i+2], 16) for i in (0, 2, 4))`
(line 55), on the already-stripped character list. -/
def parseHexChars (t : List Char) : Option (Nat × Nat × Nat) :=
  match pyIntHex (pySlice t 0 2), pyIntHex (pySlice t 2 4), pyIntHex (pySlice t 4 6) with
  | some r, some g, some b => some (r, g, b)
  | _, _, _ => none

/-- Lines 54-55: `hex_color = hex_color.lstrip('#')` followed by the
three 2-character slices.  `none` models the `ValueError` propagating
out of `set_bulbs_color`. -/
def parseHexColor (hex_color : String) : Option (Nat × Nat × Nat) :=
  parseHexChars (lstripHash hex_color.toList)

/-! ## `colorsys.rgb_to_hsv` over exact rationals -/

/-- Python `colorsys.rgb_to_hsv`, followed statement by statement; Python's
`(h/6.0) % 1.0` on a float is `x - ⌊x⌋`, i.e. `Int.fract`. -/
def rgb_to_hsv (r g b : ℚ) : ℚ × ℚ × ℚ :=
  let maxc := max r (max g b)
  let minc := min r (min g b)
  let v := maxc
  if minc = maxc then (0, 0, v)
  else
    let rangec := maxc - minc
    let s := rangec / maxc
    let rc := (maxc - r) / rangec
    let gc := (maxc - g) / rangec
    let bc := (maxc - b) / rangec
    let h := if r = maxc then bc - gc
             else if g = maxc then 2 + rc - bc
             else 4 + gc - rc
    (Int.fract (h / 6), s, v)

/-- Python `int()` on a number: truncation toward zero. -/
def pyTrunc (q : ℚ) : Int :=
  if 0 ≤ q then ⌊q⌋ else -⌊-q⌋

/-- Lines 54-63 of `set_bulbs_color` before the device loop: parse the
hex string, normalize each channel by `/255`, convert with
`colorsys.rgb_to_hsv`, and truncate `h*360`, `s*100`, `v*100` to `int`. -/
def hexToKasaHsv (hex_color : String) : Option (Int × Int × Int) :=
  match parseHexColor hex_color with
  | none => none
  | some (r, g, b) =>
    let hsv := rgb_to_hsv ((r : ℚ) / 255) ((g : ℚ) / 255) ((b : ℚ) / 255)
    some (pyTrunc (hsv.1 * 360), pyTrunc (hsv.2.1 * 100), pyTrunc (hsv.2.2 * 100))

/-! ## Device fleet model

A `SmartBulb` carries its network address and the locally cached on/off
status (`kasa`'s `bulb.is_on`).  Each fleet helper iterates the bulb list
with a per-device `try/except` that logs and continues.  Device network
calls may raise; this is modelled by a failure oracle `fail i j`, true
when the `j`-th awaited device call in the loop body for the `i`-th bulb
raises.  A body emits one event per completed call plus a log event when
its `except` branch runs. -/

structure SmartBulb where
  host : String
  is_on : Bool
deriving DecidableEq

/-- Observable per-device actions and log lines of the fleet helpers. -/
inductive Event where
  | turnOn (i : Nat)
  | turnOff (i : Nat)
  | setBrightness (i : Nat) (level : Int)
  | setHsv (i : Nat) (h s v : Int)
  | setColorTemp (i : Nat) (temp : Int)
  | logState (i : Nat)
  | logBrightness (i : Nat)
  | logColor (i : Nat)
  | logTemp (i : Nat)
deriving DecidableEq

/-- The bulb index an event concerns. -/
def Event.bulb : Event → Nat
  | .turnOn i => i
  | .turnOff i => i
  | .setBrightness i _ => i
  | .setHsv i _ _ _ => i
  | .setColorTemp i _ => i
  | .logState i => i
  | .logBrightness i => i
  | .logColor i => i
  | .logTemp i => i

/-- Failure oracle: `fail i j` ⇔ the `j`-th awaited device call for bulb `i` raises. -/
def FailOracle : Type := Nat → Nat → Bool

/-- The shared `for bulb in bulbs:` loop shape of every fleet helper,
with `i` the position of the current bulb in the fleet list. -/
def fleetLoop (body : Nat → SmartBulb → List Event) : Nat → List SmartBulb → List Event
  | _, [] => []
  | i, b :: rest => body i b ++ fleetLoop body (i + 1) rest

/-- Loop body of `set_bulbs_state` (lines 32-39): one call, `turn_on` or
`turn_off` depending on `state`; on failure the `except` logs. -/
def stateBody (fail : FailOracle) (state : Bool) (i : Nat) (_b : SmartBulb) : List Event :=
  if fail i 0 then [.logState i]
  else if state then [.turnOn i] else [.turnOff i]

/-- Lines 31-39: `set_bulbs_state`. -/
def set_bulbs_state (fail : FailOracle) (state : Bool) (bulbs : List SmartBulb) : List Event :=
  fleetLoop (stateBody fail state) 0 bulbs

/-- Line 47: `await bulb.set_brightness(int(level))` (line 47): `int(level)` is
evaluated first and raises inside the `try` when malformed. -/
def brightnessCall (fail : FailOracle) (level : Option String) (i : Nat) : List Event :=
  match pyInt level with
  | none => [.logBrightness i]
  | some n => if fail i 1 then [.logBrightness i] else [.setBrightness i n]

/-- Loop body of `set_bulbs_brightness` (lines 43-49): turn on first if
the cached status is off, then set the brightness. -/
def brightnessBody (fail : FailOracle) (level : Option String) (i : Nat) (b : SmartBulb) : List Event :=
  if b.is_on then brightnessCall fail level i
  else if fail i 0 then [.logBrightness i]
  else .turnOn i :: brightnessCall fail level i

/-- Lines 41-49: `set_bulbs_brightness`; every exception in the body,
including the `int(level)` conversion, is caught per device. -/
def set_bulbs_brightness (fail : FailOracle) (level : Option String) (bulbs : List SmartBulb) : List Event :=
  fleetLoop (brightnessBody fail level) 0 bulbs

/-- Line 69: `await bulb.set_hsv(kasa_h, kasa_s, kasa_v)` (line 69). -/
def colorCall (fail : FailOracle) (h s v : Int) (i : Nat) : List Event :=
  if fail i 1 then [.logColor i] else [.setHsv i h s v]

/-- Loop body of `set_bulbs_color` (lines 66-71). -/
def colorBody (fail : FailOracle) (h s v : Int) (i : Nat) (b : SmartBulb) : List Event :=
  if b.is_on then colorCall fail h s v i
  else if fail i 0 then [.logColor i]
  else .turnOn i :: colorCall fail h s v i

/-- Lines 51-71: `set_bulbs_color`.  The hex parsing and HSV conversion
run before the device loop and outside any `try`; `none` models the
exception propagating to the caller (also when the handler passed the
missing-field `None`, whose `.lstrip` raises `AttributeError`). -/
def set_bulbs_color (fail : FailOracle) (hex_color : Option String) (bulbs : List SmartBulb) :
    Option (List Event) :=
  match hex_color with
  | none => none
  | some s =>
    match hexToKasaHsv s with
    | none => none
    | some (h, sat, v) => some (fleetLoop (colorBody fail h sat v) 0 bulbs)

/-- Line 79: `await bulb.set_color_temp(int(temp))` (line 79). -/
def tempCall (fail : FailOracle) (temp : Option String) (i : Nat) : List Event :=
  match pyInt temp with
  | none => [.logTemp i]
  | some n => if fail i 1 then [.logTemp i] else [.setColorTemp i n]

/-- Loop body of `set_bulbs_temp` (lines 76-81). -/
def tempBody (fail : FailOracle) (temp : Option String) (i : Nat) (b : SmartBulb) : List Event :=
  if b.is_on then tempCall fail temp i
  else if fail i 0 then [.logTemp i]
  else .turnOn i :: tempCall fail temp i

/-- Lines 73-81: `set_bulbs_temp`; the `int(temp)` conversion sits inside
the per-device `try`. -/
def set_bulbs_temp (fail : FailOracle) (temp : Option String) (bulbs : List SmartBulb) : List Event :=
  fleetLoop (tempBody fail temp) 0 bulbs

/-! ## HTTP handlers (lines 155-181)

Each handler reads one form field (`form.get`, `none` when missing) and
delegates.  A handler returning `none` models an exception escaping to
the framework (a failed request); `some (trace, status)` models a normal
response rendered with the given status string. -/

/-- Python string interpolation of a form value: `str(None) = "None"`. -/
def formStr : Option String → String
  | some s => s
  | none => "None"

/-- Lines 155-160: the `/toggle` handler.
`state = form.get('state') == 'on'`. -/
def toggle (fail : FailOracle) (bulbs : List SmartBulb) (stateField : Option String) :
    Option (List Event × String) :=
  let state := stateField == some "on"
  some (set_bulbs_state fail state bulbs, "Switched")

/-- Lines 162-167: the `/brightness` handler. -/
def brightness (fail : FailOracle) (bulbs : List SmartBulb) (level : Option String) :
    Option (List Event × String) :=
  some (set_bulbs_brightness fail level bulbs, "Brightness " ++ formStr level ++ "%")

/-- Lines 169-174: the `/color` handler; an exception raised by
`set_bulbs_color` propagates (no `try` in the handler). -/
def color (fail : FailOracle) (bulbs : List SmartBulb) (hexField : Option String) :
    Option (List Event × String) :=
  (set_bulbs_color fail hexField bulbs).map (fun t => (t, "Color Set"))

/-- Lines 176-181: the `/temperature` handler. -/
def temperature (fail : FailOracle) (bulbs : List SmartBulb) (temp : Option String) :
    Option (List Event × String) :=
  some (set_bulbs_temp fail temp bulbs, "Temp " ++ formStr temp ++ "K")

/-! ## The PIR motion-watch loop (`pir_loop`, lines 84-97)

The loop is embedded as a small-step machine.  One step is one atomic
stretch of the Python task between suspension points, with time kept in
milliseconds.  The 20-second hold (`await asyncio.sleep(20)`, line 93)
is split into 200 poll-free 100 ms ticks so that intermediate instants
of the hold are observable states.  A `sweep b` event stands for the
completed call `await set_bulbs_state(b)` (lines 92 and 95). -/

/-- Sensor polls (`GPIO.input(PIR_PIN)`, line 88) and fleet sweeps. -/
inductive PirEvent where
  | poll (high : Bool)
  | sweep (powerOn : Bool)
deriving DecidableEq

/-- Control position inside the loop body:
`check` = about to read the sensor at line 88 (flag only ever false here
in single-task runs); `fireOn` = flag just set (line 91), about to run
the power-on sweep (line 92); `hold k` = inside the 20 s sleep with `k`
100 ms ticks left; `afterOff` = the power-off sweep (line 95) has
completed, the flag is still true, line 96 is next. -/
inductive PC where
  | check
  | fireOn
  | hold (ticks : Nat)
  | afterOff
deriving DecidableEq

structure LoopState where
  pc : PC
  motion_active : Bool
  now : Nat
deriving DecidableEq

/-- The 20 s hold divided into 100 ms ticks. -/
def holdTicks : Nat := 200

/-- One step of `pir_loop`; `sensor` is the current pin reading, which is
consulted only at `check`.  The trailing `await asyncio.sleep(0.1)`
(line 97) accounts for the `+ 100` on the paths returning to `check`. -/
def pirStep (s : LoopState) (sensor : Bool) : LoopState × List (Nat × PirEvent) :=
  match s.pc with
  | .check =>
    if sensor then
      if s.motion_active then ({ s with now := s.now + 100 }, [(s.now, .poll true)])
      else ({ s with pc := .fireOn, motion_active := true }, [(s.now, .poll true)])
    else ({ s with now := s.now + 100 }, [(s.now, .poll false)])
  | .fireOn => ({ s with pc := .hold holdTicks }, [(s.now, .sweep true)])
  | .hold 0 => ({ s with pc := .afterOff }, [(s.now, .sweep false)])
  | .hold (k + 1) => ({ s with pc := .hold k, now := s.now + 100 }, [])
  | .afterOff => ({ s with pc := .check, motion_active := false, now := s.now + 100 }, [])

/-- Run `n` steps of the loop against the sensor reading stream `σ`
(`σ k` = the reading consumed by the `k`-th step, when that step reads
the pin), collecting timestamped events. -/
def pirRun (s : LoopState) (σ : Nat → Bool) : Nat → LoopState × List (Nat × PirEvent)
  | 0 => (s, [])
  | n + 1 =>
    let p := pirStep s (σ 0)
    let q := pirRun p.1 (fun k => σ (k + 1)) n
    (q.1, p.2 ++ q.2)

/-- The loop's start state: flag false, at the sensor check. -/
def pirInit : LoopState := ⟨.check, false, 0⟩

/-- State after `n` steps, as a function. -/
def pirState (s : LoopState) (σ : Nat → Bool) (n : Nat) : LoopState :=
  (pirRun s σ n).1

/-- Timestamps of the actual sensor reads in an event trace. -/
def pollTimes (evs : List (Nat × PirEvent)) : List Nat :=
  evs.filterMap (fun p => match p.2 with | .poll _ => some p.1 | _ => none)

/-! ## Outcome predicates

An *outcome* event of a loop body is the event that settles that bulb's
attempt: the target device call, or the log line of the `except` branch.
Each body emits exactly one outcome event, which formalises "this bulb
was attempted exactly once". -/

def stateOutcome (i : Nat) : Event → Bool
  | .turnOn j => j == i
  | .turnOff j => j == i
  | .logState j => j == i
  | _ => false

def brightnessOutcome (i : Nat) : Event → Bool
  | .setBrightness j _ => j == i
  | .logBrightness j => j == i
  | _ => false

def colorOutcome (i : Nat) : Event → Bool
  | .setHsv j _ _ _ => j == i
  | .logColor j => j == i
  | _ => false

def tempOutcome (i : Nat) : Event → Bool
  | .setColorTemp j _ => j == i
  | .logTemp j => j == i
  | _ => false

/-- Concrete instruments for witnesses: the two-bulb demo fleet of
`BULB_IPS` (first cached on, second cached off), the all-success oracle,
and the oracle failing every call of bulb `k`. -/
def demoFleet : List SmartBulb :=
  [⟨"192.168.1.33", true⟩, ⟨"192.168.1.36", false⟩]

def noFail : FailOracle := fun _ _ => false

def failAt (k : Nat) : FailOracle := fun i _ => i == k

/-! ## Lemmas about the PIR loop -/

theorem pirRun_succ (s : LoopState) (σ : Nat → Bool) (n : Nat) :
    pirRun s σ (n + 1) =
      ((pirRun (pirStep s (σ 0)).1 (fun k => σ (k + 1)) n).1,
       (pirStep s (σ 0)).2 ++ (pirRun (pirStep s (σ 0)).1 (fun k => σ (k + 1)) n).2) := rfl

/-- Running `m + n` steps is running `m`, then `n` on the shifted stream. -/
theorem pirRun_add (m n : Nat) (s : LoopState) (σ : Nat → Bool) :
    pirRun s σ (m + n) =
      ((pirRun (pirRun s σ m).1 (fun k => σ (k + m)) n).1,
       (pirRun s σ m).2 ++ (pirRun (pirRun s σ m).1 (fun k => σ (k + m)) n).2) := by
  induction m generalizing s σ with
  | zero =>
    simp only [Nat.zero_add, Nat.add_zero, pirRun, List.nil_append]
  | succ m ih =>
    rw [Nat.add_right_comm m 1 n, pirRun_succ, ih, pirRun_succ, List.append_assoc]
    rfl

/-- Inside the hold: `i ≤ k` ticks pass, no events, flag untouched. -/
theorem pirRun_hold_ticks (i : Nat) :
    ∀ (k t : Nat) (f : Bool) (σ : Nat → Bool), i ≤ k →
    pirRun ⟨.hold k, f, t⟩ σ i = (⟨.hold (k - i), f, t + 100 * i⟩, []) := by
  induction i with
  | zero => intro k t f σ _; simp [pirRun]
  | succ i ih =>
    intro k t f σ hik
    match k, hik with
    | k + 1, _ =>
      rw [pirRun_succ]
      have hs : pirStep ⟨.hold (k + 1), f, t⟩ (σ 0) = (⟨.hold k, f, t + 100⟩, []) := rfl
      rw [hs, ih k (t + 100) f _ (by omega)]
      have harith : t + 100 + 100 * i = t + 100 * (i + 1) := by ring
      rw [List.nil_append, Nat.succ_sub_succ, harith]

/-- From `hold k` the loop takes `k + 2` steps to return to `check`:
`k` ticks, the power-off sweep, then flag reset and the 100 ms sleep.
The sensor stream is irrelevant throughout. -/
theorem pirRun_hold (k t : Nat) (f : Bool) (σ : Nat → Bool) :
    pirRun ⟨.hold k, f, t⟩ σ (k + 2) =
      (⟨.check, false, t + 100 * k + 100⟩, [(t + 100 * k, .sweep false)]) := by
  rw [pirRun_add k 2, pirRun_hold_ticks k k t f σ (Nat.le_refl k)]
  simp only [Nat.sub_self, List.nil_append]
  rfl

/-- The full hold-and-release cycle: from an idle `check` state with the
sensor reading high, 204 steps later the loop is idle again, 20100 ms
on, having polled once, swept power on once at the trigger instant and
power off exactly 20000 ms later — regardless of all later readings. -/
theorem pirRun_cycle (σ : Nat → Bool) (t : Nat) (hσ : σ 0 = true) :
    pirRun ⟨.check, false, t⟩ σ 204 =
      (⟨.check, false, t + 20100⟩,
       [(t, .poll true), (t, .sweep true), (t + 20000, .sweep false)]) := by
  rw [show (204 : Nat) = 1 + (1 + 202) from rfl, pirRun_add]
  have h1 : pirRun ⟨.check, false, t⟩ σ 1 = (⟨.fireOn, true, t⟩, [(t, .poll true)]) := by
    simp [pirRun, pirStep, hσ]
  rw [h1, pirRun_add]
  have h2 : pirRun ⟨.fireOn, true, t⟩ (fun k => σ (k + 1)) 1 =
      (⟨.hold 200, true, t⟩, [(t, .sweep true)]) := by
    simp [pirRun, pirStep, holdTicks]
  rw [h2, show (202 : Nat) = 200 + 2 from rfl, pirRun_hold]
  norm_num

/-- The flag is true at every instant strictly inside the cycle. -/
theorem pirRun_cycle_flag (σ : Nat → Bool) (t : Nat) (hσ : σ 0 = true)
    (m : Nat) (h0 : 0 < m) (h1 : m < 204) :
    (pirState ⟨.check, false, t⟩ σ m).motion_active = true := by
  unfold pirState
  match m, h0 with
  | 1, _ =>
    simp [pirRun, pirStep, hσ]
  | m + 2, _ =>
    rw [show m + 2 = 1 + (1 + m) from by omega, pirRun_add]
    have hst : pirRun ⟨.check, false, t⟩ σ 1 = (⟨.fireOn, true, t⟩, [(t, .poll true)]) := by
      simp [pirRun, pirStep, hσ]
    rw [hst, pirRun_add]
    have h2 : pirRun ⟨.fireOn, true, t⟩ (fun k => σ (k + 1)) 1 =
        (⟨.hold 200, true, t⟩, [(t, .sweep true)]) := by
      simp [pirRun, pirStep, holdTicks]
    rw [h2]
    rcases Nat.lt_or_ge m 201 with hm | hm
    · rw [pirRun_hold_ticks m 200 t true _ (by omega)]
    · have hm201 : m = 201 := by omega
      subst hm201
      rw [show (201 : Nat) = 200 + 1 from rfl, pirRun_add,
        pirRun_hold_ticks 200 200 t true _ (Nat.le_refl 200)]
      simp [pirRun, pirStep]

/-- Stepping preserves the invariant "flag ⇔ a cycle is in progress". -/
theorem pirStep_inv (s : LoopState) (b : Bool)
    (h : s.motion_active = true ↔ s.pc ≠ PC.check) :
    (pirStep s b).1.motion_active = true ↔ (pirStep s b).1.pc ≠ PC.check := by
  rcases s with ⟨pc, f, t⟩
  cases pc with
  | check =>
    have hf : f = false := by simpa using h
    subst hf
    cases b <;> simp [pirStep]
  | fireOn =>
    have hf : f = true := by rw [h]; simp
    subst hf
    simp [pirStep]
  | hold k =>
    have hf : f = true := by rw [h]; simp
    subst hf
    cases k <;> simp [pirStep]
  | afterOff =>
    simp [pirStep]

/-- The invariant holds in every state reachable from the start state. -/
theorem pirRun_inv_aux (n : Nat) :
    ∀ (s : LoopState) (σ : Nat → Bool),
    (s.motion_active = true ↔ s.pc ≠ PC.check) →
    ((pirRun s σ n).1.motion_active = true ↔ (pirRun s σ n).1.pc ≠ PC.check) := by
  induction n with
  | zero => intro s σ h; simpa [pirRun] using h
  | succ n ih =>
    intro s σ h
    rw [pirRun_succ]
    exact ih (pirStep s (σ 0)).1 (fun k => σ (k + 1)) (pirStep_inv s (σ 0) h)

/-! ## Lemmas about the fleet loop -/

/-- The sweep splits around the bulb at any position `j`. -/
theorem fleetLoop_decomp (body : Nat → SmartBulb → List Event) :
    ∀ (j : Nat) (l : List SmartBulb) (i0 : Nat) (h : j < l.length),
    fleetLoop body i0 l =
      fleetLoop body i0 (l.take j) ++ body (i0 + j) (l.get ⟨j, h⟩) ++
        fleetLoop body (i0 + j + 1) (l.drop (j + 1)) := by
  intro j
  induction j with
  | zero =>
    intro l i0 h
    match l with
    | b :: rest => simp [fleetLoop]
  | succ j ih =>
    intro l i0 h
    match l with
    | b :: rest =>
      have hr : j < rest.length := by simpa using h
      have harith : i0 + (j + 1) = i0 + 1 + j := by omega
      have harith2 : i0 + (j + 1) + 1 = i0 + 1 + j + 1 := by omega
      simp only [fleetLoop, List.take_succ_cons, List.drop_succ_cons, List.get_cons_succ,
        harith, harith2, ih rest (i0 + 1) hr, List.append_assoc]

/-- Every event of a sweep comes from the body of some listed bulb. -/
theorem fleetLoop_mem (body : Nat → SmartBulb → List Event) :
    ∀ (l : List SmartBulb) (i0 : Nat) (e : Event), e ∈ fleetLoop body i0 l →
    ∃ (j : Nat) (h : j < l.length), e ∈ body (i0 + j) (l.get ⟨j, h⟩) := by
  intro l
  induction l with
  | nil => intro i0 e he; simp [fleetLoop] at he
  | cons b rest ih =>
    intro i0 e he
    rcases List.mem_append.mp he with hb | hr
    · exact ⟨0, by simp, by simpa using hb⟩
    · rcases ih (i0 + 1) e hr with ⟨j, hj, hbody⟩
      exact ⟨j + 1, by simpa using Nat.succ_lt_succ hj, by
        simpa [Nat.add_right_comm i0 1 j] using hbody⟩

/-- Helper: a list all of whose entries equal `c` is sorted. -/
theorem sorted_of_all_eq {l : List Nat} {c : Nat} (h : ∀ x ∈ l, x = c) :
    l.Sorted (· ≤ ·) := by
  induction l with
  | nil => simp
  | cons a rest ih =>
    rw [List.sorted_cons]
    refine ⟨fun b hb => ?_, ih fun x hx => h x (List.mem_cons_of_mem a hx)⟩
    rw [h a (List.mem_cons_self a rest), h b (List.mem_cons_of_mem a hb)]

/-- If every body emits only events of its own bulb, the sweep's events
are grouped by bulb in ascending fleet order. -/
theorem fleetLoop_sorted (body : Nat → SmartBulb → List Event)
    (hb : ∀ i b e, e ∈ body i b → Event.bulb e = i) :
    ∀ (l : List SmartBulb) (i0 : Nat),
    (∀ x ∈ (fleetLoop body i0 l).map Event.bulb, i0 ≤ x) ∧
      ((fleetLoop body i0 l).map Event.bulb).Sorted (· ≤ ·) := by
  intro l
  induction l with
  | nil => intro i0; simp [fleetLoop]
  | cons b rest ih =>
    intro i0
    have hblock : ∀ x ∈ (body i0 b).map Event.bulb, x = i0 := by
      intro x hx
      rcases List.mem_map.mp hx with ⟨e, he, rfl⟩
      exact hb i0 b e he
    constructor
    · intro x hx
      rw [fleetLoop, List.map_append] at hx
      rcases List.mem_append.mp hx with h1 | h2
      · exact (hblock x h1).ge
      · exact le_of_lt (lt_of_lt_of_le (Nat.lt_succ_self i0) ((ih (i0 + 1)).1 x h2))
    · rw [fleetLoop, List.map_append]
      refine List.pairwise_append.mpr ⟨sorted_of_all_eq hblock, (ih (i0 + 1)).2, fun a ha c hc => ?_⟩
      rw [hblock a ha]
      exact le_of_lt (lt_of_lt_of_le (Nat.lt_succ_self i0) ((ih (i0 + 1)).1 c hc))

/-- If each body produces exactly one event satisfying its own bulb's
outcome predicate and none satisfying another bulb's, then the sweep
contains exactly one outcome event for every listed bulb. -/
theorem fleetLoop_countP (body : Nat → SmartBulb → List Event) (p : Nat → Event → Bool)
    (hone : ∀ i b, (body i b).countP (p i) = 1)
    (hother : ∀ i b e, e ∈ body i b → ∀ j, j ≠ i → p j e = false) :
    ∀ (l : List SmartBulb) (i0 j : Nat), i0 ≤ j → j < i0 + l.length →
    (fleetLoop body i0 l).countP (p j) = 1 := by
  intro l
  induction l with
  | nil => intro i0 j h1 h2; simp at h2; omega
  | cons b rest ih =>
    intro i0 j h1 h2
    rw [fleetLoop, List.countP_append]
    rcases Nat.eq_or_lt_of_le h1 with rfl | hlt
    · have hrest : (fleetLoop body (i0 + 1) rest).countP (p i0) = 0 := by
        rw [List.countP_eq_zero]
        intro e he
        rcases fleetLoop_mem body rest (i0 + 1) e he with ⟨m, hm, hbody⟩
        simpa using hother (i0 + 1 + m) _ e hbody i0 (by omega)
      rw [hone i0 b, hrest]
    · have hblock : (body i0 b).countP (p j) = 0 := by
        rw [List.countP_eq_zero]
        intro e he
        simpa using hother i0 b e he j (by omega)
      rw [hblock, ih (i0 + 1) j hlt (by simpa [Nat.add_right_comm] using h2)]

/-! ## Per-operation body lemmas -/

theorem stateOutcome_bulb {j : Nat} {e : Event} (h : stateOutcome j e = true) :
    e.bulb = j := by
  cases e <;> simp_all [stateOutcome, Event.bulb]

theorem brightnessOutcome_bulb {j : Nat} {e : Event} (h : brightnessOutcome j e = true) :
    e.bulb = j := by
  cases e <;> simp_all [brightnessOutcome, Event.bulb]

theorem colorOutcome_bulb {j : Nat} {e : Event} (h : colorOutcome j e = true) :
    e.bulb = j := by
  cases e <;> simp_all [colorOutcome, Event.bulb]

theorem tempOutcome_bulb {j : Nat} {e : Event} (h : tempOutcome j e = true) :
    e.bulb = j := by
  cases e <;> simp_all [tempOutcome, Event.bulb]

theorem stateBody_bulb (fail : FailOracle) (st : Bool) (i : Nat) (b : SmartBulb) (e : Event)
    (he : e ∈ stateBody fail st i b) : e.bulb = i := by
  unfold stateBody at he
  split at he
  · simp at he; subst he; rfl
  · split at he <;> (simp at he; subst he; rfl)

theorem brightnessCall_bulb (fail : FailOracle) (level : Option String) (i : Nat) (e : Event)
    (he : e ∈ brightnessCall fail level i) : e.bulb = i := by
  unfold brightnessCall at he
  split at he
  · simp at he; subst he; rfl
  · split at he <;> (simp at he; subst he; rfl)

theorem brightnessBody_bulb (fail : FailOracle) (level : Option String) (i : Nat) (b : SmartBulb)
    (e : Event) (he : e ∈ brightnessBody fail level i b) : e.bulb = i := by
  unfold brightnessBody at he
  split at he
  · exact brightnessCall_bulb fail level i e he
  · split at he
    · simp at he; subst he; rfl
    · rcases List.mem_cons.mp he with rfl | hm
      · rfl
      · exact brightnessCall_bulb fail level i e hm

theorem colorCall_bulb (fail : FailOracle) (h s v : Int) (i : Nat) (e : Event)
    (he : e ∈ colorCall fail h s v i) : e.bulb = i := by
  unfold colorCall at he
  split at he <;> (simp at he; subst he; rfl)

theorem colorBody_bulb (fail : FailOracle) (h s v : Int) (i : Nat) (b : SmartBulb)
    (e : Event) (he : e ∈ colorBody fail h s v i b) : e.bulb = i := by
  unfold colorBody at he
  split at he
  · exact colorCall_bulb fail h s v i e he
  · split at he
    · simp at he; subst he; rfl
    · rcases List.mem_cons.mp he with rfl | hm
      · rfl
      · exact colorCall_bulb fail h s v i e hm

theorem tempCall_bulb (fail : FailOracle) (temp : Option String) (i : Nat) (e : Event)
    (he : e ∈ tempCall fail temp i) : e.bulb = i := by
  unfold tempCall at he
  split at he
  · simp at he; subst he; rfl
  · split at he <;> (simp at he; subst he; rfl)

theorem tempBody_bulb (fail : FailOracle) (temp : Option String) (i : Nat) (b : SmartBulb)
    (e : Event) (he : e ∈ tempBody fail temp i b) : e.bulb = i := by
  unfold tempBody at he
  split at he
  · exact tempCall_bulb fail temp i e he
  · split at he
    · simp at he; subst he; rfl
    · rcases List.mem_cons.mp he with rfl | hm
      · rfl
      · exact tempCall_bulb fail temp i e hm

theorem stateBody_countP (fail : FailOracle) (st : Bool) (i : Nat) (b : SmartBulb) :
    (stateBody fail st i b).countP (stateOutcome i) = 1 := by
  unfold stateBody
  split
  · simp [stateOutcome]
  · split <;> simp [stateOutcome]

theorem brightnessCall_countP (fail : FailOracle) (level : Option String) (i : Nat) :
    (brightnessCall fail level i).countP (brightnessOutcome i) = 1 := by
  cases h : pyInt level with
  | none => simp [brightnessCall, h, brightnessOutcome]
  | some n =>
    simp only [brightnessCall, h]
    split <;> simp [brightnessOutcome]

theorem brightnessBody_countP (fail : FailOracle) (level : Option String) (i : Nat)
    (b : SmartBulb) :
    (brightnessBody fail level i b).countP (brightnessOutcome i) = 1 := by
  unfold brightnessBody
  split
  · exact brightnessCall_countP fail level i
  · split
    · simp [brightnessOutcome]
    · rw [List.countP_cons]
      simp [brightnessOutcome, brightnessCall_countP fail level i]

theorem colorCall_countP (fail : FailOracle) (h s v : Int) (i : Nat) :
    (colorCall fail h s v i).countP (colorOutcome i) = 1 := by
  unfold colorCall
  split <;> simp [colorOutcome]

theorem colorBody_countP (fail : FailOracle) (h s v : Int) (i : Nat) (b : SmartBulb) :
    (colorBody fail h s v i b).countP (colorOutcome i) = 1 := by
  unfold colorBody
  split
  · exact colorCall_countP fail h s v i
  · split
    · simp [colorOutcome]
    · rw [List.countP_cons]
      simp [colorOutcome, colorCall_countP fail h s v i]

theorem tempCall_countP (fail : FailOracle) (temp : Option String) (i : Nat) :
    (tempCall fail temp i).countP (tempOutcome i) = 1 := by
  cases h : pyInt temp with
  | none => simp [tempCall, h, tempOutcome]
  | some n =>
    simp only [tempCall, h]
    split <;> simp [tempOutcome]

theorem tempBody_countP (fail : FailOracle) (temp : Option String) (i : Nat) (b : SmartBulb) :
    (tempBody fail temp i b).countP (tempOutcome i) = 1 := by
  unfold tempBody
  split
  · exact tempCall_countP fail temp i
  · split
    · simp [tempOutcome]
    · rw [List.countP_cons]
      simp [tempOutcome, tempCall_countP fail temp i]

/-- An outcome predicate keyed to a different bulb never fires. -/
theorem outcome_false_of_bulb {p : Nat → Event → Bool}
    (hpb : ∀ {j : Nat} {e : Event}, p j e = true → Event.bulb e = j)
    {i j : Nat} {e : Event} (hbulb : Event.bulb e = i) (hne : j ≠ i) : p j e = false := by
  cases hpe : p j e
  · rfl
  · exact absurd ((hpb hpe).symm.trans hbulb) hne

/-! ### Body shapes in specific situations -/

theorem stateBody_fail (fail : FailOracle) (st : Bool) (i : Nat) (b : SmartBulb)
    (h : fail i 0 = true) : stateBody fail st i b = [Event.logState i] := by
  simp [stateBody, h]

theorem stateBody_ok (fail : FailOracle) (st : Bool) (i : Nat) (b : SmartBulb)
    (h : fail i 0 = false) :
    stateBody fail st i b = if st then [Event.turnOn i] else [Event.turnOff i] := by
  simp [stateBody, h]

theorem brightnessBody_log_mem (fail : FailOracle) (level : Option String) (i : Nat)
    (b : SmartBulb) (h0 : fail i 0 = true) (h1 : fail i 1 = true) :
    Event.logBrightness i ∈ brightnessBody fail level i b := by
  unfold brightnessBody brightnessCall
  split
  · split
    · simp
    · simp [h1]
  · simp [h0]

theorem brightnessBody_off (fail : FailOracle) (level : Option String) (i : Nat) (b : SmartBulb)
    (n : Int) (hoff : b.is_on = false) (h0 : fail i 0 = false) (h1 : fail i 1 = false)
    (hp : pyInt level = some n) :
    brightnessBody fail level i b = [Event.turnOn i, Event.setBrightness i n] := by
  simp [brightnessBody, brightnessCall, hoff, h0, h1, hp]

theorem brightnessBody_on (fail : FailOracle) (level : Option String) (i : Nat) (b : SmartBulb)
    (n : Int) (hon : b.is_on = true) (h1 : fail i 1 = false) (hp : pyInt level = some n) :
    brightnessBody fail level i b = [Event.setBrightness i n] := by
  simp [brightnessBody, brightnessCall, hon, h1, hp]

theorem turnOn_not_mem_brightnessCall (fail : FailOracle) (level : Option String) (i j : Nat) :
    Event.turnOn j ∉ brightnessCall fail level i := by
  unfold brightnessCall
  split
  · simp
  · split <;> simp

theorem brightnessBody_log_mem_of_none (fail : FailOracle) (level : Option String) (i : Nat)
    (b : SmartBulb) (hp : pyInt level = none) :
    Event.logBrightness i ∈ brightnessBody fail level i b := by
  unfold brightnessBody brightnessCall
  split
  · simp [hp]
  · split
    · simp
    · simp [hp]

theorem setBrightness_not_mem_body_of_none (fail : FailOracle) (level : Option String)
    (i : Nat) (b : SmartBulb) (n : Int) (hp : pyInt level = none) :
    Event.setBrightness i n ∉ brightnessBody fail level i b := by
  unfold brightnessBody brightnessCall
  split
  · simp [hp]
  · split
    · simp
    · simp [hp]

theorem colorBody_log_mem (fail : FailOracle) (h s v : Int) (i : Nat) (b : SmartBulb)
    (h0 : fail i 0 = true) (h1 : fail i 1 = true) :
    Event.logColor i ∈ colorBody fail h s v i b := by
  unfold colorBody colorCall
  split
  · simp [h1]
  · simp [h0]

theorem colorBody_off (fail : FailOracle) (h s v : Int) (i : Nat) (b : SmartBulb)
    (hoff : b.is_on = false) (h0 : fail i 0 = false) (h1 : fail i 1 = false) :
    colorBody fail h s v i b = [Event.turnOn i, Event.setHsv i h s v] := by
  simp [colorBody, colorCall, hoff, h0, h1]

theorem colorBody_on (fail : FailOracle) (h s v : Int) (i : Nat) (b : SmartBulb)
    (hon : b.is_on = true) (h1 : fail i 1 = false) :
    colorBody fail h s v i b = [Event.setHsv i h s v] := by
  simp [colorBody, colorCall, hon, h1]

theorem turnOn_not_mem_colorCall (fail : FailOracle) (h s v : Int) (i j : Nat) :
    Event.turnOn j ∉ colorCall fail h s v i := by
  unfold colorCall
  split <;> simp

theorem tempBody_log_mem (fail : FailOracle) (temp : Option String) (i : Nat)
    (b : SmartBulb) (h0 : fail i 0 = true) (h1 : fail i 1 = true) :
    Event.logTemp i ∈ tempBody fail temp i b := by
  unfold tempBody tempCall
  split
  · split
    · simp
    · simp [h1]
  · simp [h0]

theorem tempBody_off (fail : FailOracle) (temp : Option String) (i : Nat) (b : SmartBulb)
    (n : Int) (hoff : b.is_on = false) (h0 : fail i 0 = false) (h1 : fail i 1 = false)
    (hp : pyInt temp = some n) :
    tempBody fail temp i b = [Event.turnOn i, Event.setColorTemp i n] := by
  simp [tempBody, tempCall, hoff, h0, h1, hp]

theorem tempBody_on (fail : FailOracle) (temp : Option String) (i : Nat) (b : SmartBulb)
    (n : Int) (hon : b.is_on = true) (h1 : fail i 1 = false) (hp : pyInt temp = some n) :
    tempBody fail temp i b = [Event.setColorTemp i n] := by
  simp [tempBody, tempCall, hon, h1, hp]

theorem turnOn_not_mem_tempCall (fail : FailOracle) (temp : Option String) (i j : Nat) :
    Event.turnOn j ∉ tempCall fail temp i := by
  unfold tempCall
  split
  · simp
  · split <;> simp

theorem tempBody_log_mem_of_none (fail : FailOracle) (temp : Option String) (i : Nat)
    (b : SmartBulb) (hp : pyInt temp = none) :
    Event.logTemp i ∈ tempBody fail temp i b := by
  unfold tempBody tempCall
  split
  · simp [hp]
  · split
    · simp
    · simp [hp]

theorem setColorTemp_not_mem_body_of_none (fail : FailOracle) (temp : Option String)
    (i : Nat) (b : SmartBulb) (n : Int) (hp : pyInt temp = none) :
    Event.setColorTemp i n ∉ tempBody fail temp i b := by
  unfold tempBody tempCall
  split
  · simp [hp]
  · split
    · simp
    · simp [hp]

/-- Events of the body at position `j` are events of the whole sweep. -/
theorem fleetLoop_mem_of_body (body : Nat → SmartBulb → List Event) (l : List SmartBulb)
    (j : Nat) (h : j < l.length) (e : Event) (he : e ∈ body j (l.get ⟨j, h⟩)) :
    e ∈ fleetLoop body 0 l := by
  rw [fleetLoop_decomp body j l 0 h]
  simp only [List.mem_append]
  left; right
  simpa [Nat.zero_add] using he

/-! ## Hex parsing helper lemmas -/

theorem hexDigitVal_le {c : Char} {d : Nat} (h : hexDigitVal c = some d) : d ≤ 15 := by
  simp only [hexDigitVal] at h
  split at h
  · simp at h; omega
  · split at h
    · simp at h; omega
    · split at h
      · simp at h; omega
      · simp at h

theorem hexDigitVal_ne_hash {c : Char} (h : (hexDigitVal c).isSome) : (c == '#') = false := by
  cases hc : c == '#'
  · rfl
  · rw [beq_iff_eq] at hc
    subst hc
    exact absurd h (by decide)

theorem lstripHash_hex_head {c : Char} (l : List Char) (h : (hexDigitVal c).isSome) :
    lstripHash (c :: l) = c :: l := by
  simp [lstripHash, List.dropWhile_cons, hexDigitVal_ne_hash h]

theorem pyIntHex_two {a b : Char} {da db : Nat} (ha : hexDigitVal a = some da)
    (hb : hexDigitVal b = some db) : pyIntHex [a, b] = some (16 * da + db) := by
  simp [pyIntHex, hexDigitsVal, ha, hb]

theorem pyIntHex_one {a : Char} {da : Nat} (ha : hexDigitVal a = some da) :
    pyIntHex [a] = some da := by
  simp [pyIntHex, hexDigitsVal, ha]

theorem exists_six {α : Type} {l : List α} (h : l.length = 6) :
    ∃ a b c d e f : α, l = [a, b, c, d, e, f] := by
  match l, h with
  | [a, b, c, d, e, f], _ => exact ⟨a, b, c, d, e, f, rfl⟩

theorem exists_five {α : Type} {l : List α} (h : l.length = 5) :
    ∃ a b c d e : α, l = [a, b, c, d, e] := by
  match l, h with
  | [a, b, c, d, e], _ => exact ⟨a, b, c, d, e, rfl⟩

theorem option_isSome_exists {α : Type} {o : Option α} (h : o.isSome) : ∃ x, o = some x := by
  cases o
  · simp at h
  · exact ⟨_, rfl⟩

/-- Parsing six hex digits (with anything appended) succeeds, uses only
those six characters, and yields two-digit channels. -/
theorem parseHexChars_six {a b c d e f : Char} {da db dc dd de df : Nat} (extra : List Char)
    (ha : hexDigitVal a = some da) (hb : hexDigitVal b = some db)
    (hc : hexDigitVal c = some dc) (hd : hexDigitVal d = some dd)
    (he : hexDigitVal e = some de) (hf : hexDigitVal f = some df) :
    parseHexChars ([a, b, c, d, e, f] ++ extra) =
      some (16 * da + db, 16 * dc + dd, 16 * de + df) := by
  have hs1 : pyIntHex (pySlice ([a, b, c, d, e, f] ++ extra) 0 2) = some (16 * da + db) := by
    rw [show pySlice ([a, b, c, d, e, f] ++ extra) 0 2 = [a, b] from rfl]
    exact pyIntHex_two ha hb
  have hs2 : pyIntHex (pySlice ([a, b, c, d, e, f] ++ extra) 2 4) = some (16 * dc + dd) := by
    rw [show pySlice ([a, b, c, d, e, f] ++ extra) 2 4 = [c, d] from rfl]
    exact pyIntHex_two hc hd
  have hs3 : pyIntHex (pySlice ([a, b, c, d, e, f] ++ extra) 4 6) = some (16 * de + df) := by
    rw [show pySlice ([a, b, c, d, e, f] ++ extra) 4 6 = [e, f] from rfl]
    exact pyIntHex_two he hf
  unfold parseHexChars
  rw [hs1, hs2, hs3]

/-- Same, phrased through the string-level parser (including the
optional leading `'#'`). -/
theorem parseHexColor_six {a b c d e f : Char} {da db dc dd de df : Nat} (extra : List Char)
    (ha : hexDigitVal a = some da) (hb : hexDigitVal b = some db)
    (hc : hexDigitVal c = some dc) (hd : hexDigitVal d = some dd)
    (he : hexDigitVal e = some de) (hf : hexDigitVal f = some df) :
    parseHexColor (String.mk ([a, b, c, d, e, f] ++ extra)) =
      some (16 * da + db, 16 * dc + dd, 16 * de + df) ∧
    parseHexColor (String.mk ('#' :: ([a, b, c, d, e, f] ++ extra))) =
      some (16 * da + db, 16 * dc + dd, 16 * de + df) := by
  have hstrip : lstripHash ([a, b, c, d, e, f] ++ extra) = [a, b, c, d, e, f] ++ extra :=
    lstripHash_hex_head _ (by simp [ha])
  have hstrip2 : lstripHash ('#' :: ([a, b, c, d, e, f] ++ extra)) =
      lstripHash ([a, b, c, d, e, f] ++ extra) := by
    simp [lstripHash, List.dropWhile_cons]
  constructor
  · show parseHexChars (lstripHash ([a, b, c, d, e, f] ++ extra)) = _
    rw [hstrip]
    exact parseHexChars_six extra ha hb hc hd he hf
  · show parseHexChars (lstripHash ('#' :: ([a, b, c, d, e, f] ++ extra))) = _
    rw [hstrip2, hstrip]
    exact parseHexChars_six extra ha hb hc hd he hf

/-! ## Bounds for the HSV conversion over ℚ -/

theorem pyTrunc_eq_floor {q : ℚ} (h : 0 ≤ q) : pyTrunc q = ⌊q⌋ := if_pos h

theorem pyTrunc_bounds {q : ℚ} {c : ℤ} (h0 : 0 ≤ q) (h1 : q ≤ (c : ℚ)) :
    0 ≤ pyTrunc q ∧ pyTrunc q ≤ c := by
  rw [pyTrunc_eq_floor h0]
  exact ⟨Int.floor_nonneg.mpr h0, by simpa using Int.floor_le_floor h1⟩

theorem pyTrunc_lt {q : ℚ} {c : ℤ} (h0 : 0 ≤ q) (h1 : q < (c : ℚ)) :
    0 ≤ pyTrunc q ∧ pyTrunc q < c := by
  rw [pyTrunc_eq_floor h0]
  exact ⟨Int.floor_nonneg.mpr h0, Int.floor_lt.mpr h1⟩

/-- Channels in `[0,1]` give hue fraction in `[0,1)` and saturation and
value in `[0,1]`. -/
theorem rgb_to_hsv_bounds (r g b : ℚ) (hr0 : 0 ≤ r) (hr1 : r ≤ 1) (hg0 : 0 ≤ g) (hg1 : g ≤ 1)
    (hb0 : 0 ≤ b) (hb1 : b ≤ 1) :
    0 ≤ (rgb_to_hsv r g b).1 ∧ (rgb_to_hsv r g b).1 < 1 ∧
    0 ≤ (rgb_to_hsv r g b).2.1 ∧ (rgb_to_hsv r g b).2.1 ≤ 1 ∧
    0 ≤ (rgb_to_hsv r g b).2.2 ∧ (rgb_to_hsv r g b).2.2 ≤ 1 := by
  have hmax0 : 0 ≤ max r (max g b) := le_trans hr0 (le_max_left _ _)
  have hmax1 : max r (max g b) ≤ 1 := max_le hr1 (max_le hg1 hb1)
  have hmin0 : 0 ≤ min r (min g b) := le_min hr0 (le_min hg0 hb0)
  have hminmax : min r (min g b) ≤ max r (max g b) :=
    le_trans (min_le_left _ _) (le_max_left _ _)
  simp only [rgb_to_hsv]
  split
  · exact ⟨le_refl 0, by norm_num, le_refl 0, by norm_num, hmax0, hmax1⟩
  · rename_i hne
    have hlt : min r (min g b) < max r (max g b) := lt_of_le_of_ne hminmax hne
    have hpos : 0 < max r (max g b) := lt_of_le_of_lt hmin0 hlt
    refine ⟨Int.fract_nonneg _, Int.fract_lt_one _, ?_, ?_, hmax0, hmax1⟩
    · exact div_nonneg (sub_nonneg.mpr hminmax) (le_of_lt hpos)
    · rw [div_le_one hpos]
      have := hmin0
      linarith

/-! ## Polling cadence lemmas -/

/-- While idle (sensor persistently low), the loop polls exactly every
100 ms: `n` steps produce `n` polls at `t, t+100, …`. -/
theorem pirRun_idle (n : Nat) :
    ∀ (t : Nat) (σ : Nat → Bool), (∀ k, σ k = false) →
    pirRun ⟨.check, false, t⟩ σ n =
      (⟨.check, false, t + 100 * n⟩,
       (List.range n).map (fun i => (t + 100 * i, PirEvent.poll false))) := by
  induction n with
  | zero => intro t σ _; simp [pirRun]
  | succ n ih =>
    intro t σ hσ
    rw [pirRun_succ]
    have hs : pirStep ⟨.check, false, t⟩ (σ 0) = (⟨.check, false, t + 100⟩, [(t, .poll false)]) := by
      simp [pirStep, hσ 0]
    rw [hs, ih (t + 100) _ (fun k => hσ (k + 1))]
    refine congrArg₂ Prod.mk ?_ ?_
    · have : t + 100 + 100 * n = t + 100 * (n + 1) := by ring
      rw [this]
    · rw [List.range_succ_eq_map, List.map_cons, List.map_map]
      simp only [List.singleton_append, Nat.mul_zero, Nat.add_zero]
      refine congrArg (List.cons _) ?_
      refine List.map_congr_left fun i _ => ?_
      simp only [Function.comp_apply]
      refine congrArg₂ Prod.mk (by omega) rfl

/-- No poll happens from the start of the hold until the loop is back at
the sensor check. -/
theorem pollTimes_hold (k t : Nat) (f : Bool) (σ : Nat → Bool) :
    pollTimes (pirRun ⟨.hold k, f, t⟩ σ (k + 2)).2 = [] := by
  rw [pirRun_hold]
  rfl

/-- After a trigger, the next sensor poll happens 20100 ms after the
triggering poll (20 s hold plus the trailing 100 ms sleep). -/
theorem pirRun_cycle_next_poll (σ : Nat → Bool) (t : Nat) (hσ : σ 0 = true) :
    pollTimes (pirRun ⟨.check, false, t⟩ σ 205).2 = [t, t + 20100] := by
  rw [show (205 : Nat) = 204 + 1 from rfl, pirRun_add, pirRun_cycle σ t hσ]
  cases hb : σ (0 + 204) <;>
    simp [pirRun, pirStep, hb, pollTimes, List.filterMap]

/-- A power-off sweep never issues `turn_on`. -/
theorem turnOn_not_mem_stateBody_false (fail : FailOracle) (i j : Nat) (b : SmartBulb) :
    Event.turnOn j ∉ stateBody fail false i b := by
  unfold stateBody
  split <;> simp

/-! ## Concrete conversions (reference values) -/

theorem hexToKasaHsv_red : hexToKasaHsv "#FF0000" = some (0, 100, 100) := by
  have hp : parseHexColor "#FF0000" = some (255, 0, 0) := by decide
  rw [hexToKasaHsv, hp]
  norm_num [rgb_to_hsv, pyTrunc, max_def, min_def, Int.fract]

theorem hexToKasaHsv_green : hexToKasaHsv "#00FF00" = some (120, 100, 100) := by
  have hp : parseHexColor "#00FF00" = some (0, 255, 0) := by decide
  rw [hexToKasaHsv, hp]
  norm_num [rgb_to_hsv, pyTrunc, max_def, min_def, Int.fract]

theorem hexToKasaHsv_blue : hexToKasaHsv "#0000FF" = some (240, 100, 100) := by
  have hp : parseHexColor "#0000FF" = some (0, 0, 255) := by decide
  rw [hexToKasaHsv, hp]
  norm_num [rgb_to_hsv, pyTrunc, max_def, min_def, Int.fract]

theorem hexToKasaHsv_white : hexToKasaHsv "#FFFFFF" = some (0, 0, 100) := by
  have hp : parseHexColor "#FFFFFF" = some (255, 255, 255) := by decide
  rw [hexToKasaHsv, hp]
  norm_num [rgb_to_hsv, pyTrunc, max_def, min_def, Int.fract]

theorem hexToKasaHsv_green5 : hexToKasaHsv "#00ff0" = some (120, 100, 100) := by
  have hp : parseHexColor "#00ff0" = some (0, 255, 0) := by decide
  rw [hexToKasaHsv, hp]
  norm_num [rgb_to_hsv, pyTrunc, max_def, min_def, Int.fract]

/-! ## Sweep specifications (per operation) -/

theorem state_sweep_spec (bulbs : List SmartBulb) (fail : FailOracle) (st : Bool) (k : Nat)
    (hk : k < bulbs.length) (hfail : fail k 0 = true) :
    Event.logState k ∈ set_bulbs_state fail st bulbs ∧
    (∀ i, i < bulbs.length → (set_bulbs_state fail st bulbs).countP (stateOutcome i) = 1) ∧
    ((set_bulbs_state fail st bulbs).map Event.bulb).Sorted (· ≤ ·) ∧
    (∀ j, j < bulbs.length → j ≠ k → fail j 0 = false →
      (if st then Event.turnOn j else Event.turnOff j) ∈ set_bulbs_state fail st bulbs) := by
  unfold set_bulbs_state
  refine ⟨?_, ?_, ?_, ?_⟩
  · apply fleetLoop_mem_of_body _ bulbs k hk
    rw [stateBody_fail fail st k _ hfail]
    simp
  · intro i hi
    exact fleetLoop_countP _ stateOutcome (stateBody_countP fail st)
      (fun i1 b e he j hj =>
        outcome_false_of_bulb (fun hh => stateOutcome_bulb hh)
          (stateBody_bulb fail st i1 b e he) hj)
      bulbs 0 i (Nat.zero_le i) (by omega)
  · exact (fleetLoop_sorted _ (stateBody_bulb fail st) bulbs 0).2
  · intro j hj hjk hjf
    apply fleetLoop_mem_of_body _ bulbs j hj
    rw [stateBody_ok fail st j _ hjf]
    cases st <;> simp

theorem brightness_sweep_spec (bulbs : List SmartBulb) (fail : FailOracle)
    (level : Option String) (k : Nat) (hk : k < bulbs.length)
    (h0 : fail k 0 = true) (h1 : fail k 1 = true) :
    Event.logBrightness k ∈ set_bulbs_brightness fail level bulbs ∧
    (∀ i, i < bulbs.length →
      (set_bulbs_brightness fail level bulbs).countP (brightnessOutcome i) = 1) ∧
    ((set_bulbs_brightness fail level bulbs).map Event.bulb).Sorted (· ≤ ·) ∧
    (∀ j n, j < bulbs.length → j ≠ k → fail j 0 = false → fail j 1 = false →
      pyInt level = some n →
      Event.setBrightness j n ∈ set_bulbs_brightness fail level bulbs) := by
  unfold set_bulbs_brightness
  refine ⟨?_, ?_, ?_, ?_⟩
  · exact fleetLoop_mem_of_body _ bulbs k hk _ (brightnessBody_log_mem fail level k _ h0 h1)
  · intro i hi
    exact fleetLoop_countP _ brightnessOutcome (brightnessBody_countP fail level)
      (fun i1 b e he j hj =>
        outcome_false_of_bulb (fun hh => brightnessOutcome_bulb hh)
          (brightnessBody_bulb fail level i1 b e he) hj)
      bulbs 0 i (Nat.zero_le i) (by omega)
  · exact (fleetLoop_sorted _ (brightnessBody_bulb fail level) bulbs 0).2
  · intro j n hj hjk hj0 hj1 hp
    apply fleetLoop_mem_of_body _ bulbs j hj
    cases hon : (bulbs.get ⟨j, hj⟩).is_on
    · rw [brightnessBody_off fail level j _ n hon hj0 hj1 hp]
      simp
    · rw [brightnessBody_on fail level j _ n hon hj1 hp]
      simp

theorem color_sweep_spec (bulbs : List SmartBulb) (fail : FailOracle) (hex : String)
    (h s v : Int) (k : Nat) (hk : k < bulbs.length)
    (hconv : hexToKasaHsv hex = some (h, s, v))
    (h0 : fail k 0 = true) (h1 : fail k 1 = true) :
    set_bulbs_color fail (some hex) bulbs = some (fleetLoop (colorBody fail h s v) 0 bulbs) ∧
    Event.logColor k ∈ fleetLoop (colorBody fail h s v) 0 bulbs ∧
    (∀ i, i < bulbs.length →
      (fleetLoop (colorBody fail h s v) 0 bulbs).countP (colorOutcome i) = 1) ∧
    ((fleetLoop (colorBody fail h s v) 0 bulbs).map Event.bulb).Sorted (· ≤ ·) ∧
    (∀ j, j < bulbs.length → j ≠ k → fail j 0 = false → fail j 1 = false →
      Event.setHsv j h s v ∈ fleetLoop (colorBody fail h s v) 0 bulbs) := by
  refine ⟨?_, ?_, ?_, ?_, ?_⟩
  · simp only [set_bulbs_color, hconv]
  · exact fleetLoop_mem_of_body _ bulbs k hk _ (colorBody_log_mem fail h s v k _ h0 h1)
  · intro i hi
    exact fleetLoop_countP _ colorOutcome (colorBody_countP fail h s v)
      (fun i1 b e he j hj =>
        outcome_false_of_bulb (fun hh => colorOutcome_bulb hh)
          (colorBody_bulb fail h s v i1 b e he) hj)
      bulbs 0 i (Nat.zero_le i) (by omega)
  · exact (fleetLoop_sorted _ (colorBody_bulb fail h s v) bulbs 0).2
  · intro j hj hjk hj0 hj1
    apply fleetLoop_mem_of_body _ bulbs j hj
    cases hon : (bulbs.get ⟨j, hj⟩).is_on
    · rw [colorBody_off fail h s v j _ hon hj0 hj1]
      simp
    · rw [colorBody_on fail h s v j _ hon hj1]
      simp

theorem temp_sweep_spec (bulbs : List SmartBulb) (fail : FailOracle)
    (temp : Option String) (k : Nat) (hk : k < bulbs.length)
    (h0 : fail k 0 = true) (h1 : fail k 1 = true) :
    Event.logTemp k ∈ set_bulbs_temp fail temp bulbs ∧
    (∀ i, i < bulbs.length →
      (set_bulbs_temp fail temp bulbs).countP (tempOutcome i) = 1) ∧
    ((set_bulbs_temp fail temp bulbs).map Event.bulb).Sorted (· ≤ ·) ∧
    (∀ j n, j < bulbs.length → j ≠ k → fail j 0 = false → fail j 1 = false →
      pyInt temp = some n →
      Event.setColorTemp j n ∈ set_bulbs_temp fail temp bulbs) := by
  unfold set_bulbs_temp
  refine ⟨?_, ?_, ?_, ?_⟩
  · exact fleetLoop_mem_of_body _ bulbs k hk _ (tempBody_log_mem fail temp k _ h0 h1)
  · intro i hi
    exact fleetLoop_countP _ tempOutcome (tempBody_countP fail temp)
      (fun i1 b e he j hj =>
        outcome_false_of_bulb (fun hh => tempOutcome_bulb hh)
          (tempBody_bulb fail temp i1 b e he) hj)
      bulbs 0 i (Nat.zero_le i) (by omega)
  · exact (fleetLoop_sorted _ (tempBody_bulb fail temp) bulbs 0).2
  · intro j n hj hjk hj0 hj1 hp
    apply fleetLoop_mem_of_body _ bulbs j hj
    cases hon : (bulbs.get ⟨j, hj⟩).is_on
    · rw [tempBody_off fail temp j _ n hon hj0 hj1 hp]
      simp
    · rw [tempBody_on fail temp j _ n hon hj1 hp]
      simp

/-! ## Claim theorems -/

/-- C1: Motion Watch Loop cycle: from an idle `check` state, a high
sensor reading triggers a cycle that performs exactly one fleet power-on
sweep with the flag set true; the flag stays true at every instant of
the full 20-second hold regardless of all further sensor readings; at
expiry exactly one power-off sweep runs at `t + 20000` and the flag
returns to false only after it completes; and in every reachable state
the flag is true iff a hold-and-release cycle is in progress. -/
theorem motion_watch_cycle :
    (∀ (σ : Nat → Bool) (t : Nat), σ 0 = true →
      pirRun ⟨.check, false, t⟩ σ 204 =
        (⟨.check, false, t + 20100⟩,
         [(t, .poll true), (t, .sweep true), (t + 20000, .sweep false)]) ∧
      (∀ m, 0 < m → m < 204 →
        (pirState ⟨.check, false, t⟩ σ m).motion_active = true)) ∧
    (∀ (σ : Nat → Bool) (n : Nat),
      ((pirRun pirInit σ n).1.motion_active = true ↔ (pirRun pirInit σ n).1.pc ≠ PC.check)) := by
  refine ⟨fun σ t hσ => ⟨pirRun_cycle σ t hσ, fun m h0 h1 => pirRun_cycle_flag σ t hσ m h0 h1⟩,
    fun σ n => pirRun_inv_aux n pirInit σ (by simp [pirInit])⟩

theorem motion_watch_cycle_witness :
    ((fun _ : Nat => true) 0 = true) ∧
    pirRun ⟨.check, false, 0⟩ (fun _ => true) 204 =
      (⟨.check, false, 20100⟩, [(0, .poll true), (0, .sweep true), (20000, .sweep false)]) ∧
    (pirState ⟨.check, false, 0⟩ (fun _ => true) 100).motion_active = true ∧
    ((pirRun pirInit (fun _ => true) 50).1.motion_active = true ↔
      (pirRun pirInit (fun _ => true) 50).1.pc ≠ PC.check) := by
  have h := motion_watch_cycle.1 (fun _ => true) 0 rfl
  exact ⟨rfl, by simpa using h.1, h.2 100 (by decide) (by decide),
    motion_watch_cycle.2 (fun _ => true) 50⟩

/-- C8 counterexample: with the sensor always high from an idle check
state, the triggering poll and the next poll are 20100 ms apart, not
100 ms: the sensor is not polled at all during the Active hold, so the
loop does not poll at a fixed 100 ms interval regardless of state. -/
theorem polling_cadence_counterexample :
    pollTimes (pirRun pirInit (fun _ => true) 205).2 = [0, 20100] ∧
    ¬ (pollTimes (pirRun pirInit (fun _ => true) 205).2).Chain' (fun a b => b = a + 100) := by
  have h : pollTimes (pirRun (⟨.check, false, 0⟩ : LoopState) (fun _ => true) 205).2 =
      [0, 0 + 20100] := pirRun_cycle_next_poll (fun _ => true) 0 rfl
  constructor
  · simpa [pirInit] using h
  · rw [show pirInit = (⟨.check, false, 0⟩ : LoopState) from rfl, h]
    simp [List.chain'_cons]

/-- C8 corrected: the loop polls the sensor every 100 ms only while
Idle; during an Active hold-and-release cycle the sensor is not polled
at all, and after a triggering poll the next poll comes 20100 ms later
(20 s hold + 100 ms sleep).  Polling remains the only scheduling
primitive in the embedding (there is no interrupt transition). -/
theorem polling_cadence_amended :
    (∀ (n t : Nat) (σ : Nat → Bool), (∀ k, σ k = false) →
      pirRun ⟨.check, false, t⟩ σ n =
        (⟨.check, false, t + 100 * n⟩,
         (List.range n).map (fun i => (t + 100 * i, PirEvent.poll false)))) ∧
    (∀ (k t : Nat) (f : Bool) (σ : Nat → Bool),
      pollTimes (pirRun ⟨.hold k, f, t⟩ σ (k + 2)).2 = []) ∧
    (∀ (σ : Nat → Bool) (t : Nat), σ 0 = true →
      pollTimes (pirRun ⟨.check, false, t⟩ σ 205).2 = [t, t + 20100]) :=
  ⟨fun n t σ h => pirRun_idle n t σ h, fun k t f σ => pollTimes_hold k t f σ,
   fun σ t h => pirRun_cycle_next_poll σ t h⟩

theorem polling_cadence_amended_witness :
    (∀ k : Nat, (fun _ : Nat => false) k = false) ∧
    pirRun ⟨.check, false, 0⟩ (fun _ => false) 3 =
      (⟨.check, false, 300⟩, [(0, .poll false), (100, .poll false), (200, .poll false)]) ∧
    pollTimes (pirRun ⟨.hold 200, true, 0⟩ (fun _ => true) 202).2 = [] ∧
    pollTimes (pirRun ⟨.check, false, 0⟩ (fun _ => true) 205).2 = [0, 20100] := by
  have h1 := polling_cadence_amended.1 3 0 (fun _ => false) (fun _ => rfl)
  have h3 := polling_cadence_amended.2.2 (fun _ => true) 0 rfl
  refine ⟨fun _ => rfl, ?_, ?_, by simpa using h3⟩
  · rw [h1]; decide
  · exact polling_cadence_amended.2.1 200 0 true (fun _ => true)

/-- C5: the conversion's reference values: pure red, green, blue and
white map to the documented hue/saturation/value triples. -/
theorem color_reference_values :
    hexToKasaHsv "#FF0000" = some (0, 100, 100) ∧
    hexToKasaHsv "#00FF00" = some (120, 100, 100) ∧
    hexToKasaHsv "#0000FF" = some (240, 100, 100) ∧
    ∃ hue : Int, hexToKasaHsv "#FFFFFF" = some (hue, 0, 100) :=
  ⟨hexToKasaHsv_red, hexToKasaHsv_green, hexToKasaHsv_blue, ⟨0, hexToKasaHsv_white⟩⟩

theorem rgb_to_hsv_gray (x : ℚ) : rgb_to_hsv x x x = (0, 0, x) := by
  simp [rgb_to_hsv]

/-- C7: grayscale invariant: equal channels give saturation 0. -/
theorem grayscale_saturation_zero (s : String) (n : Nat)
    (hp : parseHexColor s = some (n, n, n)) :
    ∃ hue v : Int, hexToKasaHsv s = some (hue, 0, v) := by
  refine ⟨pyTrunc ((0 : ℚ) * 360), pyTrunc (((n : ℚ) / 255) * 100), ?_⟩
  simp only [hexToKasaHsv, hp, rgb_to_hsv_gray]
  norm_num [pyTrunc]

theorem grayscale_saturation_zero_witness :
    parseHexColor "#777777" = some (119, 119, 119) ∧
    ∃ hue v : Int, hexToKasaHsv "#777777" = some (hue, 0, v) :=
  ⟨by decide, grayscale_saturation_zero "#777777" 119 (by decide)⟩

/-- C9: the `/toggle` handler interprets exactly the string `"on"` as
power-on; `"off"`, a missing field, and any other value all produce a
power-off sweep, and the handler always returns a normal response. -/
theorem toggle_state_semantics (fail : FailOracle) (bulbs : List SmartBulb) (v : Option String) :
    toggle fail bulbs v = some (set_bulbs_state fail (v == some "on") bulbs, "Switched") ∧
    ((v == some "on") = true ↔ v = some "on") ∧
    (v ≠ some "on" →
      toggle fail bulbs v = some (set_bulbs_state fail false bulbs, "Switched") ∧
      ∀ j, j < bulbs.length → fail j 0 = false →
        Event.turnOff j ∈ set_bulbs_state fail false bulbs ∧
        Event.turnOn j ∉ set_bulbs_state fail false bulbs) ∧
    (v = some "on" →
      ∀ j, j < bulbs.length → fail j 0 = false →
        Event.turnOn j ∈ set_bulbs_state fail true bulbs) := by
  refine ⟨rfl, beq_iff_eq, fun hne => ⟨?_, fun j hj hf => ⟨?_, ?_⟩⟩, fun heq j hj hf => ?_⟩
  · unfold toggle
    rw [show (v == some "on") = false from beq_eq_false_iff_ne.mpr hne]
  · unfold set_bulbs_state
    apply fleetLoop_mem_of_body _ bulbs j hj
    rw [stateBody_ok fail false j _ hf]
    simp
  · intro hmem
    unfold set_bulbs_state at hmem
    rcases fleetLoop_mem _ bulbs 0 _ hmem with ⟨m, hm, hbody⟩
    exact turnOn_not_mem_stateBody_false fail (0 + m) j _ hbody
  · unfold set_bulbs_state
    apply fleetLoop_mem_of_body _ bulbs j hj
    rw [stateBody_ok fail true j _ hf]
    simp

/-- C2: fleet failure isolation: for each of the four fleet operations,
when every device call for bulb `k` raises, the error is caught and
logged (`log… k` appears in the trace), every listed bulb still gets
exactly one outcome event, the events stay grouped in fleet order, and
every other non-failing bulb still receives the operation; the sweep
always returns a trace (never propagates a device error). -/
theorem fleet_failure_isolation :
    (∀ (bulbs : List SmartBulb) (fail : FailOracle) (st : Bool) (k : Nat),
      k < bulbs.length → fail k 0 = true →
      Event.logState k ∈ set_bulbs_state fail st bulbs ∧
      (∀ i, i < bulbs.length → (set_bulbs_state fail st bulbs).countP (stateOutcome i) = 1) ∧
      ((set_bulbs_state fail st bulbs).map Event.bulb).Sorted (· ≤ ·) ∧
      (∀ j, j < bulbs.length → j ≠ k → fail j 0 = false →
        (if st then Event.turnOn j else Event.turnOff j) ∈ set_bulbs_state fail st bulbs)) ∧
    (∀ (bulbs : List SmartBulb) (fail : FailOracle) (level : Option String) (k : Nat),
      k < bulbs.length → fail k 0 = true → fail k 1 = true →
      Event.logBrightness k ∈ set_bulbs_brightness fail level bulbs ∧
      (∀ i, i < bulbs.length →
        (set_bulbs_brightness fail level bulbs).countP (brightnessOutcome i) = 1) ∧
      ((set_bulbs_brightness fail level bulbs).map Event.bulb).Sorted (· ≤ ·) ∧
      (∀ j n, j < bulbs.length → j ≠ k → fail j 0 = false → fail j 1 = false →
        pyInt level = some n →
        Event.setBrightness j n ∈ set_bulbs_brightness fail level bulbs)) ∧
    (∀ (bulbs : List SmartBulb) (fail : FailOracle) (hex : String) (h s v : Int) (k : Nat),
      k < bulbs.length → hexToKasaHsv hex = some (h, s, v) →
      fail k 0 = true → fail k 1 = true →
      set_bulbs_color fail (some hex) bulbs = some (fleetLoop (colorBody fail h s v) 0 bulbs) ∧
      Event.logColor k ∈ fleetLoop (colorBody fail h s v) 0 bulbs ∧
      (∀ i, i < bulbs.length →
        (fleetLoop (colorBody fail h s v) 0 bulbs).countP (colorOutcome i) = 1) ∧
      ((fleetLoop (colorBody fail h s v) 0 bulbs).map Event.bulb).Sorted (· ≤ ·) ∧
      (∀ j, j < bulbs.length → j ≠ k → fail j 0 = false → fail j 1 = false →
        Event.setHsv j h s v ∈ fleetLoop (colorBody fail h s v) 0 bulbs)) ∧
    (∀ (bulbs : List SmartBulb) (fail : FailOracle) (temp : Option String) (k : Nat),
      k < bulbs.length → fail k 0 = true → fail k 1 = true →
      Event.logTemp k ∈ set_bulbs_temp fail temp bulbs ∧
      (∀ i, i < bulbs.length →
        (set_bulbs_temp fail temp bulbs).countP (tempOutcome i) = 1) ∧
      ((set_bulbs_temp fail temp bulbs).map Event.bulb).Sorted (· ≤ ·) ∧
      (∀ j n, j < bulbs.length → j ≠ k → fail j 0 = false → fail j 1 = false →
        pyInt temp = some n →
        Event.setColorTemp j n ∈ set_bulbs_temp fail temp bulbs)) :=
  ⟨fun bulbs fail st k hk hf => state_sweep_spec bulbs fail st k hk hf,
   fun bulbs fail level k hk h0 h1 => brightness_sweep_spec bulbs fail level k hk h0 h1,
   fun bulbs fail hex h s v k hk hc h0 h1 => color_sweep_spec bulbs fail hex h s v k hk hc h0 h1,
   fun bulbs fail temp k hk h0 h1 => temp_sweep_spec bulbs fail temp k hk h0 h1⟩

theorem fleet_failure_isolation_witness :
    Event.logState 0 ∈ set_bulbs_state (failAt 0) true demoFleet ∧
    Event.turnOn 1 ∈ set_bulbs_state (failAt 0) true demoFleet ∧
    Event.logBrightness 0 ∈ set_bulbs_brightness (failAt 0) (some "50") demoFleet ∧
    Event.setBrightness 1 50 ∈ set_bulbs_brightness (failAt 0) (some "50") demoFleet ∧
    (∀ i, i < demoFleet.length →
      (set_bulbs_brightness (failAt 0) (some "50") demoFleet).countP (brightnessOutcome i) = 1) ∧
    set_bulbs_color (failAt 0) (some "#FF0000") demoFleet =
      some (fleetLoop (colorBody (failAt 0) 0 100 100) 0 demoFleet) ∧
    Event.logColor 0 ∈ fleetLoop (colorBody (failAt 0) 0 100 100) 0 demoFleet ∧
    Event.setHsv 1 0 100 100 ∈ fleetLoop (colorBody (failAt 0) 0 100 100) 0 demoFleet ∧
    Event.logTemp 0 ∈ set_bulbs_temp (failAt 0) (some "3000") demoFleet ∧
    Event.setColorTemp 1 3000 ∈ set_bulbs_temp (failAt 0) (some "3000") demoFleet := by
  have hs := fleet_failure_isolation.1 demoFleet (failAt 0) true 0 (by decide) (by decide)
  have hb := fleet_failure_isolation.2.1 demoFleet (failAt 0) (some "50") 0
    (by decide) (by decide) (by decide)
  have hc := fleet_failure_isolation.2.2.1 demoFleet (failAt 0) "#FF0000" 0 100 100 0
    (by decide) hexToKasaHsv_red (by decide) (by decide)
  have ht := fleet_failure_isolation.2.2.2 demoFleet (failAt 0) (some "3000") 0
    (by decide) (by decide) (by decide)
  refine ⟨hs.1, ?_, hb.1, ?_, hb.2.1, hc.1, hc.2.1, ?_, ht.1, ?_⟩
  · have := hs.2.2.2 1 (by decide) (by decide) (by decide)
    simpa using this
  · exact hb.2.2.2 1 50 (by decide) (by decide) (by decide) (by decide) (by decide)
  · exact hc.2.2.2.2 1 (by decide) (by decide) (by decide) (by decide)
  · exact ht.2.2.2 1 3000 (by decide) (by decide) (by decide) (by decide) (by decide)

/-! ### Turn-on ordering specifications -/

theorem brightness_order_spec (bulbs : List SmartBulb) (fail : FailOracle)
    (level : Option String) (n : Int) (i : Nat) (h : i < bulbs.length)
    (hp : pyInt level = some n) (h0 : fail i 0 = false) (h1 : fail i 1 = false) :
    ((bulbs.get ⟨i, h⟩).is_on = false →
      [Event.turnOn i, Event.setBrightness i n].Sublist (set_bulbs_brightness fail level bulbs)) ∧
    ((bulbs.get ⟨i, h⟩).is_on = true →
      Event.turnOn i ∉ set_bulbs_brightness fail level bulbs ∧
      Event.setBrightness i n ∈ set_bulbs_brightness fail level bulbs) := by
  unfold set_bulbs_brightness
  constructor
  · intro hoff
    rw [fleetLoop_decomp (brightnessBody fail level) i bulbs 0 h]
    simp only [Nat.zero_add]
    rw [brightnessBody_off fail level i _ n hoff h0 h1 hp, List.append_assoc]
    exact (List.sublist_append_left _ _).trans (List.sublist_append_right _ _)
  · intro hon
    constructor
    · intro hmem
      rcases fleetLoop_mem _ bulbs 0 _ hmem with ⟨m, hm, hbody⟩
      have hbm := brightnessBody_bulb fail level (0 + m) _ _ hbody
      have him : m = i := by simpa [Event.bulb] using hbm.symm
      subst him
      simp only [Nat.zero_add] at hbody
      have hgs : bulbs.get ⟨m, hm⟩ = bulbs.get ⟨m, h⟩ := rfl
      rw [hgs] at hbody
      unfold brightnessBody at hbody
      rw [if_pos hon] at hbody
      exact turnOn_not_mem_brightnessCall fail level m m hbody
    · apply fleetLoop_mem_of_body _ bulbs i h
      rw [brightnessBody_on fail level i _ n hon h1 hp]
      simp

theorem color_order_spec (bulbs : List SmartBulb) (fail : FailOracle)
    (hs hsat hv : Int) (i : Nat) (h : i < bulbs.length)
    (h0 : fail i 0 = false) (h1 : fail i 1 = false) :
    ((bulbs.get ⟨i, h⟩).is_on = false →
      [Event.turnOn i, Event.setHsv i hs hsat hv].Sublist
        (fleetLoop (colorBody fail hs hsat hv) 0 bulbs)) ∧
    ((bulbs.get ⟨i, h⟩).is_on = true →
      Event.turnOn i ∉ fleetLoop (colorBody fail hs hsat hv) 0 bulbs ∧
      Event.setHsv i hs hsat hv ∈ fleetLoop (colorBody fail hs hsat hv) 0 bulbs) := by
  constructor
  · intro hoff
    rw [fleetLoop_decomp (colorBody fail hs hsat hv) i bulbs 0 h]
    simp only [Nat.zero_add]
    rw [colorBody_off fail hs hsat hv i _ hoff h0 h1, List.append_assoc]
    exact (List.sublist_append_left _ _).trans (List.sublist_append_right _ _)
  · intro hon
    constructor
    · intro hmem
      rcases fleetLoop_mem _ bulbs 0 _ hmem with ⟨m, hm, hbody⟩
      have hbm := colorBody_bulb fail hs hsat hv (0 + m) _ _ hbody
      have him : m = i := by simpa [Event.bulb] using hbm.symm
      subst him
      simp only [Nat.zero_add] at hbody
      have hgs : bulbs.get ⟨m, hm⟩ = bulbs.get ⟨m, h⟩ := rfl
      rw [hgs] at hbody
      unfold colorBody at hbody
      rw [if_pos hon] at hbody
      exact turnOn_not_mem_colorCall fail hs hsat hv m m hbody
    · apply fleetLoop_mem_of_body _ bulbs i h
      rw [colorBody_on fail hs hsat hv i _ hon h1]
      simp

theorem temp_order_spec (bulbs : List SmartBulb) (fail : FailOracle)
    (temp : Option String) (n : Int) (i : Nat) (h : i < bulbs.length)
    (hp : pyInt temp = some n) (h0 : fail i 0 = false) (h1 : fail i 1 = false) :
    ((bulbs.get ⟨i, h⟩).is_on = false →
      [Event.turnOn i, Event.setColorTemp i n].Sublist (set_bulbs_temp fail temp bulbs)) ∧
    ((bulbs.get ⟨i, h⟩).is_on = true →
      Event.turnOn i ∉ set_bulbs_temp fail temp bulbs ∧
      Event.setColorTemp i n ∈ set_bulbs_temp fail temp bulbs) := by
  unfold set_bulbs_temp
  constructor
  · intro hoff
    rw [fleetLoop_decomp (tempBody fail temp) i bulbs 0 h]
    simp only [Nat.zero_add]
    rw [tempBody_off fail temp i _ n hoff h0 h1 hp, List.append_assoc]
    exact (List.sublist_append_left _ _).trans (List.sublist_append_right _ _)
  · intro hon
    constructor
    · intro hmem
      rcases fleetLoop_mem _ bulbs 0 _ hmem with ⟨m, hm, hbody⟩
      have hbm := tempBody_bulb fail temp (0 + m) _ _ hbody
      have him : m = i := by simpa [Event.bulb] using hbm.symm
      subst him
      simp only [Nat.zero_add] at hbody
      have hgs : bulbs.get ⟨m, hm⟩ = bulbs.get ⟨m, h⟩ := rfl
      rw [hgs] at hbody
      unfold tempBody at hbody
      rw [if_pos hon] at hbody
      exact turnOn_not_mem_tempCall fail temp m m hbody
    · apply fleetLoop_mem_of_body _ bulbs i h
      rw [tempBody_on fail temp i _ n hon h1 hp]
      simp

/-- C3: turn-on-before-operation ordering: for the brightness, color and
temperature sweeps, a bulb cached off gets `turn_on` immediately before
its target operation (the two appear in that order inside the trace),
while a bulb cached on receives the target operation with no `turn_on`
issued for it at all. -/
theorem turn_on_before_operation :
    (∀ (bulbs : List SmartBulb) (fail : FailOracle) (level : Option String) (n : Int)
       (i : Nat) (h : i < bulbs.length),
      pyInt level = some n → fail i 0 = false → fail i 1 = false →
      ((bulbs.get ⟨i, h⟩).is_on = false →
        [Event.turnOn i, Event.setBrightness i n].Sublist (set_bulbs_brightness fail level bulbs)) ∧
      ((bulbs.get ⟨i, h⟩).is_on = true →
        Event.turnOn i ∉ set_bulbs_brightness fail level bulbs ∧
        Event.setBrightness i n ∈ set_bulbs_brightness fail level bulbs)) ∧
    (∀ (bulbs : List SmartBulb) (fail : FailOracle) (hex : String) (hs hsat hv : Int)
       (i : Nat) (h : i < bulbs.length),
      hexToKasaHsv hex = some (hs, hsat, hv) → fail i 0 = false → fail i 1 = false →
      set_bulbs_color fail (some hex) bulbs =
        some (fleetLoop (colorBody fail hs hsat hv) 0 bulbs) ∧
      ((bulbs.get ⟨i, h⟩).is_on = false →
        [Event.turnOn i, Event.setHsv i hs hsat hv].Sublist
          (fleetLoop (colorBody fail hs hsat hv) 0 bulbs)) ∧
      ((bulbs.get ⟨i, h⟩).is_on = true →
        Event.turnOn i ∉ fleetLoop (colorBody fail hs hsat hv) 0 bulbs ∧
        Event.setHsv i hs hsat hv ∈ fleetLoop (colorBody fail hs hsat hv) 0 bulbs)) ∧
    (∀ (bulbs : List SmartBulb) (fail : FailOracle) (temp : Option String) (n : Int)
       (i : Nat) (h : i < bulbs.length),
      pyInt temp = some n → fail i 0 = false → fail i 1 = false →
      ((bulbs.get ⟨i, h⟩).is_on = false →
        [Event.turnOn i, Event.setColorTemp i n].Sublist (set_bulbs_temp fail temp bulbs)) ∧
      ((bulbs.get ⟨i, h⟩).is_on = true →
        Event.turnOn i ∉ set_bulbs_temp fail temp bulbs ∧
        Event.setColorTemp i n ∈ set_bulbs_temp fail temp bulbs)) := by
  refine ⟨fun bulbs fail level n i h hp h0 h1 => brightness_order_spec bulbs fail level n i h hp h0 h1,
    fun bulbs fail hex hs hsat hv i h hc h0 h1 => ⟨?_, color_order_spec bulbs fail hs hsat hv i h h0 h1⟩,
    fun bulbs fail temp n i h hp h0 h1 => temp_order_spec bulbs fail temp n i h hp h0 h1⟩
  simp only [set_bulbs_color, hc]

theorem turn_on_before_operation_witness :
    pyInt (some "75") = some 75 ∧
    (demoFleet.get ⟨1, by decide⟩).is_on = false ∧
    [Event.turnOn 1, Event.setBrightness 1 75].Sublist
      (set_bulbs_brightness noFail (some "75") demoFleet) ∧
    (Event.turnOn 0 ∉ set_bulbs_brightness noFail (some "75") demoFleet ∧
      Event.setBrightness 0 75 ∈ set_bulbs_brightness noFail (some "75") demoFleet) ∧
    [Event.turnOn 1, Event.setHsv 1 0 100 100].Sublist
      (fleetLoop (colorBody noFail 0 100 100) 0 demoFleet) ∧
    [Event.turnOn 1, Event.setColorTemp 1 3000].Sublist
      (set_bulbs_temp noFail (some "3000") demoFleet) := by
  have hb1 := turn_on_before_operation.1 demoFleet noFail (some "75") 75 1
    (by decide) (by decide) rfl rfl
  have hb0 := turn_on_before_operation.1 demoFleet noFail (some "75") 75 0
    (by decide) (by decide) rfl rfl
  have hcol := turn_on_before_operation.2.1 demoFleet noFail "#FF0000" 0 100 100 1
    (by decide) hexToKasaHsv_red rfl rfl
  have htmp := turn_on_before_operation.2.2 demoFleet noFail (some "3000") 3000 1
    (by decide) (by decide) rfl rfl
  exact ⟨by decide, by decide, hb1.1 (by decide), hb0.2 (by decide),
    hcol.2.1 (by decide), htmp.1 (by decide)⟩

theorem toggle_state_semantics_witness :
    toggle noFail demoFleet (some "off") = some (set_bulbs_state noFail false demoFleet, "Switched") ∧
    Event.turnOff 0 ∈ set_bulbs_state noFail false demoFleet ∧
    Event.turnOn 0 ∉ set_bulbs_state noFail false demoFleet ∧
    toggle noFail demoFleet none = some (set_bulbs_state noFail false demoFleet, "Switched") ∧
    Event.turnOn 1 ∈ set_bulbs_state noFail true demoFleet := by
  have h1 := (toggle_state_semantics noFail demoFleet (some "off")).2.2.1 (by decide)
  have h2 := (toggle_state_semantics noFail demoFleet none).2.2.1 (by decide)
  have h3 := (toggle_state_semantics noFail demoFleet (some "on")).2.2.2 rfl 1 (by decide) rfl
  exact ⟨h1.1, (h1.2 0 (by decide) rfl).1, (h1.2 0 (by decide) rfl).2, h2.1, h3⟩

/-- C4 counterexample: the malformed brightness input `"abc"` does NOT
propagate to the HTTP handler: `int(level)` sits inside the per-device
`try`, so each bulb logs a brightness error and the handler returns its
normal acknowledgement response. -/
theorem malformed_brightness_counterexample :
    pyInt (some "abc") = none ∧
    set_bulbs_brightness noFail (some "abc") demoFleet =
      [Event.logBrightness 0, Event.turnOn 1, Event.logBrightness 1] ∧
    brightness noFail demoFleet (some "abc") =
      some ([Event.logBrightness 0, Event.turnOn 1, Event.logBrightness 1],
        "Brightness abc%") := by
  refine ⟨by decide, by decide, by decide⟩

/-- C4 corrected: only malformed COLOR input (unparsable hex, or a
missing field) propagates to the handler as a framework-level request
failure; malformed brightness and temperature inputs are caught inside
the per-device `try`, logged once per device, and the handler returns
its normal acknowledgement with no device receiving the operation. -/
theorem malformed_input_propagation_amended :
    (∀ (fail : FailOracle) (bulbs : List SmartBulb) (level : Option String),
      pyInt level = none →
      brightness fail bulbs level =
        some (set_bulbs_brightness fail level bulbs, "Brightness " ++ formStr level ++ "%") ∧
      (∀ i, i < bulbs.length → Event.logBrightness i ∈ set_bulbs_brightness fail level bulbs) ∧
      (∀ i n, Event.setBrightness i n ∉ set_bulbs_brightness fail level bulbs)) ∧
    (∀ (fail : FailOracle) (bulbs : List SmartBulb) (temp : Option String),
      pyInt temp = none →
      temperature fail bulbs temp =
        some (set_bulbs_temp fail temp bulbs, "Temp " ++ formStr temp ++ "K") ∧
      (∀ i, i < bulbs.length → Event.logTemp i ∈ set_bulbs_temp fail temp bulbs) ∧
      (∀ i n, Event.setColorTemp i n ∉ set_bulbs_temp fail temp bulbs)) ∧
    (∀ (fail : FailOracle) (bulbs : List SmartBulb) (s : String),
      parseHexColor s = none →
      set_bulbs_color fail (some s) bulbs = none ∧ color fail bulbs (some s) = none) ∧
    (∀ (fail : FailOracle) (bulbs : List SmartBulb),
      set_bulbs_color fail none bulbs = none ∧ color fail bulbs none = none) := by
  refine ⟨fun fail bulbs level hp => ⟨rfl, fun i hi => ?_, fun i n hmem => ?_⟩,
    fun fail bulbs temp hp => ⟨rfl, fun i hi => ?_, fun i n hmem => ?_⟩,
    fun fail bulbs s hp => ?_, fun fail bulbs => ⟨rfl, rfl⟩⟩
  · exact fleetLoop_mem_of_body _ bulbs i hi _ (brightnessBody_log_mem_of_none fail level i _ hp)
  · rcases fleetLoop_mem _ bulbs 0 _ hmem with ⟨m, hm, hbody⟩
    have hbm := brightnessBody_bulb fail level (0 + m) _ _ hbody
    have him : 0 + m = i := hbm.symm
    rw [him] at hbody
    exact setBrightness_not_mem_body_of_none fail level i _ n hp hbody
  · exact fleetLoop_mem_of_body _ bulbs i hi _ (tempBody_log_mem_of_none fail temp i _ hp)
  · rcases fleetLoop_mem _ bulbs 0 _ hmem with ⟨m, hm, hbody⟩
    have hbm := tempBody_bulb fail temp (0 + m) _ _ hbody
    have him : 0 + m = i := hbm.symm
    rw [him] at hbody
    exact setColorTemp_not_mem_body_of_none fail temp i _ n hp hbody
  · have hconv : hexToKasaHsv s = none := by
      simp only [hexToKasaHsv, hp]
    have hcol : set_bulbs_color fail (some s) bulbs = none := by
      simp only [set_bulbs_color, hconv]
    exact ⟨hcol, by simp [color, hcol]⟩

theorem malformed_input_propagation_amended_witness :
    pyInt (some "abc") = none ∧
    brightness noFail demoFleet (some "abc") =
      some (set_bulbs_brightness noFail (some "abc") demoFleet, "Brightness abc%") ∧
    Event.logBrightness 1 ∈ set_bulbs_brightness noFail (some "abc") demoFleet ∧
    (∀ i n, Event.setBrightness i n ∉ set_bulbs_brightness noFail (some "abc") demoFleet) ∧
    pyInt (some "warm") = none ∧
    Event.logTemp 0 ∈ set_bulbs_temp noFail (some "warm") demoFleet ∧
    parseHexColor "zz" = none ∧
    color noFail demoFleet (some "zz") = none ∧
    color noFail demoFleet none = none := by
  have hb := malformed_input_propagation_amended.1 noFail demoFleet (some "abc") (by decide)
  have ht := malformed_input_propagation_amended.2.1 noFail demoFleet (some "warm") (by decide)
  have hc := malformed_input_propagation_amended.2.2.1 noFail demoFleet "zz" (by decide)
  have hn := malformed_input_propagation_amended.2.2.2 noFail demoFleet
  exact ⟨by decide, hb.1, hb.2.1 1 (by decide), hb.2.2, by decide,
    ht.2.1 0 (by decide), by decide, hc.2, hn.2⟩

/-- Channels bounded by 255 normalize into `[0,1]`. -/
theorem channel_bounds (x : Nat) (hx : x ≤ 255) :
    0 ≤ (x : ℚ) / 255 ∧ (x : ℚ) / 255 ≤ 1 := by
  constructor
  · exact div_nonneg (Nat.cast_nonneg x) (by norm_num)
  · rw [div_le_one (by norm_num : (0 : ℚ) < 255)]
    exact_mod_cast hx

/-- The three truncated components are within the Kasa ranges whenever
the channels come from two hex digits each. -/
theorem kasa_triple_bounds (r g b : Nat) (hr : r ≤ 255) (hg : g ≤ 255) (hb : b ≤ 255) :
    0 ≤ pyTrunc ((rgb_to_hsv ((r : ℚ) / 255) ((g : ℚ) / 255) ((b : ℚ) / 255)).1 * 360) ∧
    pyTrunc ((rgb_to_hsv ((r : ℚ) / 255) ((g : ℚ) / 255) ((b : ℚ) / 255)).1 * 360) < 360 ∧
    0 ≤ pyTrunc ((rgb_to_hsv ((r : ℚ) / 255) ((g : ℚ) / 255) ((b : ℚ) / 255)).2.1 * 100) ∧
    pyTrunc ((rgb_to_hsv ((r : ℚ) / 255) ((g : ℚ) / 255) ((b : ℚ) / 255)).2.1 * 100) ≤ 100 ∧
    0 ≤ pyTrunc ((rgb_to_hsv ((r : ℚ) / 255) ((g : ℚ) / 255) ((b : ℚ) / 255)).2.2 * 100) ∧
    pyTrunc ((rgb_to_hsv ((r : ℚ) / 255) ((g : ℚ) / 255) ((b : ℚ) / 255)).2.2 * 100) ≤ 100 := by
  obtain ⟨hc0, hc1⟩ := channel_bounds r hr
  obtain ⟨hd0, hd1⟩ := channel_bounds g hg
  obtain ⟨he0, he1⟩ := channel_bounds b hb
  obtain ⟨hh0, hh1, hs0, hs1, hv0, hv1⟩ := rgb_to_hsv_bounds _ _ _ hc0 hc1 hd0 hd1 he0 he1
  have h360 : (rgb_to_hsv ((r : ℚ) / 255) ((g : ℚ) / 255) ((b : ℚ) / 255)).1 * 360 <
      ((360 : ℤ) : ℚ) := by
    push_cast
    nlinarith
  have hs100 : (rgb_to_hsv ((r : ℚ) / 255) ((g : ℚ) / 255) ((b : ℚ) / 255)).2.1 * 100 ≤
      ((100 : ℤ) : ℚ) := by
    push_cast
    nlinarith
  have hv100 : (rgb_to_hsv ((r : ℚ) / 255) ((g : ℚ) / 255) ((b : ℚ) / 255)).2.2 * 100 ≤
      ((100 : ℤ) : ℚ) := by
    push_cast
    nlinarith
  exact ⟨(pyTrunc_lt (mul_nonneg hh0 (by norm_num)) h360).1,
         (pyTrunc_lt (mul_nonneg hh0 (by norm_num)) h360).2,
         (pyTrunc_bounds (mul_nonneg hs0 (by norm_num)) hs100).1,
         (pyTrunc_bounds (mul_nonneg hs0 (by norm_num)) hs100).2,
         (pyTrunc_bounds (mul_nonneg hv0 (by norm_num)) hv100).1,
         (pyTrunc_bounds (mul_nonneg hv0 (by norm_num)) hv100).2⟩

/-- C6: for every well-formed 6-hex-digit RGB string, optionally
prefixed with `'#'`, the conversion parses three channels `≤ 255`,
returns exactly the truncation (`int()`) of the standard RGB→HSV
transform on the `/255`-normalized channels, and the integer results
satisfy hue ∈ [0,360), saturation ∈ [0,100], value ∈ [0,100]. -/
theorem color_ranges_truncation (pre : Bool) (l : List Char)
    (hlen : l.length = 6) (hhex : ∀ c ∈ l, (hexDigitVal c).isSome) :
    ∃ (r g b : Nat) (hue sat v : Int),
      parseHexColor (String.mk (if pre then '#' :: l else l)) = some (r, g, b) ∧
      r ≤ 255 ∧ g ≤ 255 ∧ b ≤ 255 ∧
      hexToKasaHsv (String.mk (if pre then '#' :: l else l)) = some (hue, sat, v) ∧
      hue = pyTrunc ((rgb_to_hsv ((r : ℚ) / 255) ((g : ℚ) / 255) ((b : ℚ) / 255)).1 * 360) ∧
      sat = pyTrunc ((rgb_to_hsv ((r : ℚ) / 255) ((g : ℚ) / 255) ((b : ℚ) / 255)).2.1 * 100) ∧
      v = pyTrunc ((rgb_to_hsv ((r : ℚ) / 255) ((g : ℚ) / 255) ((b : ℚ) / 255)).2.2 * 100) ∧
      0 ≤ hue ∧ hue < 360 ∧ 0 ≤ sat ∧ sat ≤ 100 ∧ 0 ≤ v ∧ v ≤ 100 := by
  rcases exists_six hlen with ⟨a, b0, c0, d0, e0, f0, rfl⟩
  obtain ⟨da, hda⟩ := option_isSome_exists (hhex a (by simp))
  obtain ⟨db, hdb⟩ := option_isSome_exists (hhex b0 (by simp))
  obtain ⟨dc, hdc⟩ := option_isSome_exists (hhex c0 (by simp))
  obtain ⟨dd, hdd⟩ := option_isSome_exists (hhex d0 (by simp))
  obtain ⟨de, hde⟩ := option_isSome_exists (hhex e0 (by simp))
  obtain ⟨df, hdf⟩ := option_isSome_exists (hhex f0 (by simp))
  have hpair := parseHexColor_six [] hda hdb hdc hdd hde hdf
  rw [List.append_nil] at hpair
  have hparse : parseHexColor (String.mk (if pre then '#' :: [a, b0, c0, d0, e0, f0]
      else [a, b0, c0, d0, e0, f0])) = some (16 * da + db, 16 * dc + dd, 16 * de + df) := by
    cases pre
    · exact hpair.1
    · exact hpair.2
  have hr : 16 * da + db ≤ 255 := by
    have h1 := hexDigitVal_le hda; have h2 := hexDigitVal_le hdb; omega
  have hg : 16 * dc + dd ≤ 255 := by
    have h1 := hexDigitVal_le hdc; have h2 := hexDigitVal_le hdd; omega
  have hb : 16 * de + df ≤ 255 := by
    have h1 := hexDigitVal_le hde; have h2 := hexDigitVal_le hdf; omega
  obtain ⟨g1, g2, g3, g4, g5, g6⟩ := kasa_triple_bounds _ _ _ hr hg hb
  refine ⟨16 * da + db, 16 * dc + dd, 16 * de + df,
    pyTrunc ((rgb_to_hsv (((16 * da + db : Nat) : ℚ) / 255) (((16 * dc + dd : Nat) : ℚ) / 255)
      (((16 * de + df : Nat) : ℚ) / 255)).1 * 360),
    pyTrunc ((rgb_to_hsv (((16 * da + db : Nat) : ℚ) / 255) (((16 * dc + dd : Nat) : ℚ) / 255)
      (((16 * de + df : Nat) : ℚ) / 255)).2.1 * 100),
    pyTrunc ((rgb_to_hsv (((16 * da + db : Nat) : ℚ) / 255) (((16 * dc + dd : Nat) : ℚ) / 255)
      (((16 * de + df : Nat) : ℚ) / 255)).2.2 * 100),
    hparse, hr, hg, hb, ?_, rfl, rfl, rfl, g1, g2, g3, g4, g5, g6⟩
  simp only [hexToKasaHsv, hparse]

theorem color_ranges_truncation_witness :
    (['F', 'F', '8', '0', '4', '0'] : List Char).length = 6 ∧
    (∀ c ∈ (['F', 'F', '8', '0', '4', '0'] : List Char), (hexDigitVal c).isSome) ∧
    (∃ (r g b : Nat) (hue sat v : Int),
      parseHexColor (String.mk ('#' :: ['F', 'F', '8', '0', '4', '0'])) = some (r, g, b) ∧
      r ≤ 255 ∧ g ≤ 255 ∧ b ≤ 255 ∧
      hexToKasaHsv (String.mk ('#' :: ['F', 'F', '8', '0', '4', '0'])) = some (hue, sat, v) ∧
      hue = pyTrunc ((rgb_to_hsv ((r : ℚ) / 255) ((g : ℚ) / 255) ((b : ℚ) / 255)).1 * 360) ∧
      sat = pyTrunc ((rgb_to_hsv ((r : ℚ) / 255) ((g : ℚ) / 255) ((b : ℚ) / 255)).2.1 * 100) ∧
      v = pyTrunc ((rgb_to_hsv ((r : ℚ) / 255) ((g : ℚ) / 255) ((b : ℚ) / 255)).2.2 * 100) ∧
      0 ≤ hue ∧ hue < 360 ∧ 0 ≤ sat ∧ sat ≤ 100 ∧ 0 ≤ v ∧ v ≤ 100) :=
  ⟨rfl, by decide, color_ranges_truncation true ['F', 'F', '8', '0', '4', '0'] rfl (by decide)⟩

/-! ## Hex parser shape lemmas (five digits, short strings) -/

theorem parseHexChars_five {a b c d e : Char} {da db dc dd de : Nat}
    (ha : hexDigitVal a = some da) (hb : hexDigitVal b = some db)
    (hc : hexDigitVal c = some dc) (hd : hexDigitVal d = some dd)
    (he : hexDigitVal e = some de) :
    parseHexChars [a, b, c, d, e] = some (16 * da + db, 16 * dc + dd, de) := by
  have hs1 : pyIntHex (pySlice [a, b, c, d, e] 0 2) = some (16 * da + db) := by
    rw [show pySlice [a, b, c, d, e] 0 2 = [a, b] from rfl]
    exact pyIntHex_two ha hb
  have hs2 : pyIntHex (pySlice [a, b, c, d, e] 2 4) = some (16 * dc + dd) := by
    rw [show pySlice [a, b, c, d, e] 2 4 = [c, d] from rfl]
    exact pyIntHex_two hc hd
  have hs3 : pyIntHex (pySlice [a, b, c, d, e] 4 6) = some de := by
    rw [show pySlice [a, b, c, d, e] 4 6 = [e] from rfl]
    exact pyIntHex_one he
  unfold parseHexChars
  rw [hs1, hs2, hs3]

theorem parseHexColor_hash (s : String) : parseHexColor ("#" ++ s) = parseHexColor s := by
  show parseHexChars (lstripHash ("#" ++ s).toList) = parseHexChars (lstripHash s.toList)
  rw [show ("#" ++ s).toList = '#' :: s.toList from rfl]
  simp [lstripHash, List.dropWhile_cons]

theorem parseHexColor_short (s : String) (hlen : (lstripHash s.toList).length ≤ 4) :
    parseHexColor s = none := by
  have hsl : pySlice (lstripHash s.toList) 4 6 = [] := by
    unfold pySlice
    rw [List.drop_eq_nil_of_le (by omega)]
    rfl
  have h3 : pyIntHex (pySlice (lstripHash s.toList) 4 6) = none := by
    rw [hsl]
    rfl
  show parseHexChars (lstripHash s.toList) = none
  unfold parseHexChars
  rw [h3]
  cases pyIntHex (pySlice (lstripHash s.toList) 0 2) <;>
    cases pyIntHex (pySlice (lstripHash s.toList) 2 4) <;> rfl

/-- C10 counterexample: the 5-hex-digit string `"#00ff0"` does NOT raise
a parsing error: the third slice `[4:6]` comes back as the single digit
`'0'` and the conversion succeeds (parsing it as pure green). -/
theorem hex_five_digit_counterexample :
    (lstripHash ("#00ff0".toList)).length = 5 ∧
    parseHexColor "#00ff0" = some (0, 255, 0) ∧
    hexToKasaHsv "#00ff0" = some (120, 100, 100) :=
  ⟨by decide, by decide, hexToKasaHsv_green5⟩

/-- C10 corrected: the parser strips every leading `'#'`; any string
whose first six post-strip characters are hex digits parses, with
everything beyond the sixth character ignored; a post-strip string of
exactly five hex digits also parses, reading the third channel from a
single digit (value ≤ 15); only four or fewer post-strip characters
make the parse raise. -/
theorem hex_parser_amended :
    (∀ s : String, parseHexColor ("#" ++ s) = parseHexColor s) ∧
    (∀ (l extra : List Char), l.length = 6 → (∀ c ∈ l, (hexDigitVal c).isSome) →
      parseHexChars (l ++ extra) = parseHexChars l ∧ (parseHexChars l).isSome) ∧
    (∀ l : List Char, l.length = 5 → (∀ c ∈ l, (hexDigitVal c).isSome) →
      ∃ r g b : Nat, parseHexColor (String.mk l) = some (r, g, b) ∧ b ≤ 15) ∧
    (∀ s : String, (lstripHash s.toList).length ≤ 4 → parseHexColor s = none) := by
  refine ⟨parseHexColor_hash, fun l extra hlen hhex => ?_, fun l hlen hhex => ?_,
    parseHexColor_short⟩
  · rcases exists_six hlen with ⟨a, b0, c0, d0, e0, f0, rfl⟩
    obtain ⟨da, hda⟩ := option_isSome_exists (hhex a (by simp))
    obtain ⟨db, hdb⟩ := option_isSome_exists (hhex b0 (by simp))
    obtain ⟨dc, hdc⟩ := option_isSome_exists (hhex c0 (by simp))
    obtain ⟨dd, hdd⟩ := option_isSome_exists (hhex d0 (by simp))
    obtain ⟨de, hde⟩ := option_isSome_exists (hhex e0 (by simp))
    obtain ⟨df, hdf⟩ := option_isSome_exists (hhex f0 (by simp))
    have h1 := parseHexChars_six extra hda hdb hdc hdd hde hdf
    have h2 := parseHexChars_six [] hda hdb hdc hdd hde hdf
    rw [List.append_nil] at h2
    rw [h1, h2]
    simp
  · rcases exists_five hlen with ⟨a, b0, c0, d0, e0, rfl⟩
    obtain ⟨da, hda⟩ := option_isSome_exists (hhex a (by simp))
    obtain ⟨db, hdb⟩ := option_isSome_exists (hhex b0 (by simp))
    obtain ⟨dc, hdc⟩ := option_isSome_exists (hhex c0 (by simp))
    obtain ⟨dd, hdd⟩ := option_isSome_exists (hhex d0 (by simp))
    obtain ⟨de, hde⟩ := option_isSome_exists (hhex e0 (by simp))
    refine ⟨16 * da + db, 16 * dc + dd, de, ?_, hexDigitVal_le hde⟩
    show parseHexChars (lstripHash [a, b0, c0, d0, e0]) = _
    rw [show lstripHash [a, b0, c0, d0, e0] = [a, b0, c0, d0, e0] from
      lstripHash_hex_head _ (by simp [hda])]
    exact parseHexChars_five hda hdb hdc hdd hde

theorem hex_parser_amended_witness :
    parseHexColor ("#" ++ "ff0000") = parseHexColor "ff0000" ∧
    (['0', '0', 'f', 'f', '0'] : List Char).length = 5 ∧
    (∃ r g b : Nat,
      parseHexColor (String.mk ['0', '0', 'f', 'f', '0']) = some (r, g, b) ∧ b ≤ 15) ∧
    (lstripHash ("#ab".toList)).length ≤ 4 ∧
    parseHexColor "#ab" = none :=
  ⟨hex_parser_amended.1 "ff0000", rfl,
   hex_parser_amended.2.2.1 ['0', '0', 'f', 'f', '0'] rfl (by decide),
   by decide, hex_parser_amended.2.2.2 "#ab" (by decide)⟩

end KasaControl
